import Mathlib

/-!
Verification development for the authoritative simulation core of the
hex-map strategy game (the reducer in `src/game/simulation.ts`, using the
data shapes of `src/game/types.ts`).  The embedding follows the richer,
canonical variant of the reducer (the one with territory, buffs, raiding,
policies and NPC players).  JavaScript numbers are modelled as exact
rationals (`ℚ`); `Math.floor`, `Math.max`, `Math.min` become `Int.floor`,
`max`, `min`.
-/

namespace DietyFrontier

/-- `Math.floor` on a JS number, staying inside the numeric type. -/
def mfloor (x : ℚ) : ℚ := ((⌊x⌋ : ℤ) : ℚ)

/-! ## Data model (`types.ts`, canonical variant) -/

inductive ResourceType
  | Food | Wood | Stone | Gold | Belief
  deriving DecidableEq

inductive TerrainType
  | Field | Forest | Mountain | Water | FertileField
  deriving DecidableEq

inductive DeityPowerType
  | BLESSED_HARVEST | INSPIRED_WORSHIP
  deriving DecidableEq

inductive Stance
  | AGGRESSIVE | DEFENSIVE | PASSIVE
  deriving DecidableEq

inductive GamePhase
  | LOBBY | RUNNING | GAME_OVER
  deriving DecidableEq

/-- `Record<ResourceType, number>`: a total ledger with the five fixed keys. -/
structure Resources where
  food : ℚ
  wood : ℚ
  stone : ℚ
  gold : ℚ
  belief : ℚ
  deriving DecidableEq

def Resources.get (r : Resources) : ResourceType → ℚ
  | .Food => r.food
  | .Wood => r.wood
  | .Stone => r.stone
  | .Gold => r.gold
  | .Belief => r.belief

def Resources.set (r : Resources) : ResourceType → ℚ → Resources
  | .Food, v => { r with food := v }
  | .Wood, v => { r with wood := v }
  | .Stone, v => { r with stone := v }
  | .Gold, v => { r with gold := v }
  | .Belief, v => { r with belief := v }

/-- `Object.keys` of a full resource record, in insertion order. -/
def resourceKeys : List ResourceType :=
  [.Food, .Wood, .Stone, .Gold, .Belief]

structure HexCoord where
  q : ℚ
  r : ℚ
  deriving DecidableEq

structure Tile where
  id : String
  coord : HexCoord
  terrain : TerrainType
  settlementId : Option String
  controller : Option String
  deriving DecidableEq

structure Settlement where
  id : String
  owner : String
  tileId : String
  level : ℚ
  population : ℚ
  workers : ℚ
  worshippers : ℚ
  defenders : ℚ
  populationCap : ℚ
  growthProgress : ℚ
  deriving DecidableEq

structure FactionPolicy where
  workersPercent : ℚ
  worshippersPercent : ℚ
  defendersPercent : ℚ
  stance : Stance
  deriving DecidableEq

structure Player where
  id : String
  name : String
  resources : Resources
  victoryPoints : ℚ
  belief : ℚ
  maxBeliefEver : ℚ
  policy : Option FactionPolicy
  isNpc : Bool
  deriving DecidableEq

structure SettlementBuff where
  id : String
  settlementId : String
  owner : String
  type : DeityPowerType
  expiresAtMs : ℚ
  deriving DecidableEq

structure GameState where
  id : String
  tiles : List Tile
  settlements : List Settlement
  players : List Player
  phase : GamePhase
  currentTimeMs : ℚ
  winnerId : Option String
  buffs : List SettlementBuff
  deriving DecidableEq

/-! ## Actions -/

inductive ActionKind
  | NOOP
  | PLACE_STARTING_SETTLEMENT
  | BUILD_SETTLEMENT
  | ALLOCATE_ROLES
  | TICK
  | RAID_SETTLEMENT
  | USE_DEITY_POWER
  | UPGRADE_SETTLEMENT
  | SET_POLICY
  /-- A runtime action kind outside the typed union; it reaches the
      reducer's `default` branch (a logged no-op). -/
  | UNKNOWN (tag : String)
  deriving DecidableEq

/-- The (untagged in TS) union of payload shapes; `noPayload` is `undefined`. -/
inductive ActionPayload
  | noPayload
  | placeStartingSettlement (tileId : String)
  | buildSettlement (tileId : String)
  | allocateRoles (settlementId : String)
      (workersPercent worshippersPercent defendersPercent : ℚ)
  | tick (deltaMs : ℚ)
  | raidSettlement (fromSettlementId targetSettlementId : String)
      (raiderPercent : ℚ)
  | useDeityPower (power : DeityPowerType) (settlementId : String)
  | upgradeSettlement (settlementId : String)
  | setPolicy (workersPercent worshippersPercent defendersPercent : ℚ)
      (stance : Stance)
  deriving DecidableEq

structure PlayerAction where
  id : String
  playerId : String
  type : ActionKind
  payload : ActionPayload
  clientTimeMs : ℚ
  deriving DecidableEq

/-! ## Lookup helpers (simulation.ts) -/

def getPlayer (state : GameState) (playerId : String) : Option Player :=
  state.players.find? (fun p => p.id = playerId)

def countSettlementsForPlayer (state : GameState) (playerId : String) : ℕ :=
  (state.settlements.filter (fun s => s.owner = playerId)).length

def playerHasSettlement (state : GameState) (playerId : String) : Bool :=
  state.settlements.any (fun s => s.owner = playerId)

def findTileById (state : GameState) (tileId : String) : Option Tile :=
  state.tiles.find? (fun t => t.id = tileId)

def findSettlementById (state : GameState) (settlementId : String) :
    Option Settlement :=
  state.settlements.find? (fun s => s.id = settlementId)

/-! ## Role allocator (canonical `computeRoleCountsFromPercents`) -/

structure RoleCounts where
  workers : ℚ
  worshippers : ℚ
  defenders : ℚ
  deriving DecidableEq

/-- The `while (assigned < population)` loop that hands every remaining
    unit to `workers`.  `fuel` bounds the iteration count; the wrapper
    below supplies `⌈population - assigned⌉` which is exact: the loop
    body adds 1 to `assigned` per iteration and stops as soon as
    `assigned ≥ population`. -/
def distributeRemainderAux (population : ℚ) :
    ℕ → ℚ → ℚ → ℚ × ℚ
  | 0, workers, assigned => (workers, assigned)
  | fuel + 1, workers, assigned =>
      if assigned < population then
        distributeRemainderAux population fuel (workers + 1) (assigned + 1)
      else (workers, assigned)

def distributeRemainder (population workers assigned : ℚ) : ℚ :=
  (distributeRemainderAux population
    (Int.toNat ⌈population - assigned⌉) workers assigned).1

/-- `computeRoleCountsFromPercents` of the canonical reducer variant:
    no clamping, an all-zero result when the percent sum (or the
    population) is non-positive, and the whole rounding remainder handed
    to `workers`. -/
def computeRoleCountsFromPercents
    (population workersPercent worshippersPercent defendersPercent : ℚ) :
    RoleCounts :=
  let totalPercent := workersPercent + worshippersPercent + defendersPercent
  if totalPercent ≤ 0 ∨ population ≤ 0 then
    { workers := 0, worshippers := 0, defenders := 0 }
  else
    let norm := totalPercent / 100
    let workers := mfloor ((workersPercent / norm / 100) * population)
    let worshippers := mfloor ((worshippersPercent / norm / 100) * population)
    let defenders := mfloor ((defendersPercent / norm / 100) * population)
    let assigned := workers + worshippers + defenders
    { workers := distributeRemainder population workers assigned,
      worshippers := worshippers,
      defenders := defenders }

/-! ## Territory engine -/

/-- Cube-space Chebyshev distance from axial coordinates
    (`Math.max(|ax-bx|, |ay-by|, |az-bz|)` with `y = -x - z`). -/
def hexDistance (a b : HexCoord) : ℚ :=
  max |a.q - b.q| (max |(-a.q - a.r) - (-b.q - b.r)| |a.r - b.r|)

def getSettlementInfluenceRadius (settlement : Settlement) : ℚ :=
  1 + settlement.level

/-- The pairs `{ settlement, coord }` built at the top of
    `assignTileControllers` (settlements whose tile lookup succeeds). -/
def settlementsWithCoords (state : GameState) :
    List (Settlement × HexCoord) :=
  state.settlements.filterMap (fun s =>
    (findTileById state s.tileId).map (fun t => (s, t.coord)))

/-- The accumulator of the per-tile loop: `bestOwner`, `bestDist`
    (`none` is the initial `Infinity`), `contested`. -/
structure TCAcc where
  bestOwner : Option String
  bestDist : Option ℚ
  contested : Bool
  deriving DecidableEq

/-- One iteration of the per-tile loop over the settlements. -/
def tcUpdate (tileCoord : HexCoord) (acc : TCAcc)
    (sc : Settlement × HexCoord) : TCAcc :=
  let radius := getSettlementInfluenceRadius sc.1
  let dist := hexDistance tileCoord sc.2
  if radius < dist then acc
  else
    match acc.bestDist with
    | none =>
        { bestOwner := some sc.1.owner, bestDist := some dist,
          contested := false }
    | some bd =>
        if dist < bd then
          { bestOwner := some sc.1.owner, bestDist := some dist,
            contested := false }
        else if dist = bd ∧ some sc.1.owner ≠ acc.bestOwner then
          { acc with contested := true }
        else acc

/-- The controller recomputed for one tile. -/
def controllerForTile (swc : List (Settlement × HexCoord)) (tile : Tile) :
    Option String :=
  if swc.isEmpty then none
  else
    let acc := swc.foldl (tcUpdate tile.coord)
      { bestOwner := none, bestDist := none, contested := false }
    if acc.contested then none else acc.bestOwner

/-- `assignTileControllers`: recompute every tile's `controller` from the
    nearest in-range settlement. -/
def assignTileControllers (state : GameState) : GameState :=
  let swc := settlementsWithCoords state
  { state with
    tiles := state.tiles.map (fun tile =>
      { tile with controller := controllerForTile swc tile }) }

/-! ## Resource records -/

def emptyResourceRecord : Resources :=
  { food := 0, wood := 0, stone := 0, gold := 0, belief := 0 }

/-- `subtractResources`: clamped subtraction over the keys present in the
    (partial) `cost` record, here a key/amount list. -/
def subtractResources (base : Resources)
    (cost : List (ResourceType × ℚ)) : Resources :=
  cost.foldl (fun acc rc => acc.set rc.1 (max 0 (acc.get rc.1 - rc.2))) base

/-- Pointwise addition over all five keys (the `Object.keys(delta)`
    loop that applies an income record). -/
def addResources (base delta : Resources) : Resources :=
  resourceKeys.foldl (fun acc res =>
    acc.set res (acc.get res + delta.get res)) base

/-! ## TICK internals -/

/-- `countControlledTiles` followed by the `?? 0` lookup: the number of
    tiles whose `controller` is this player id.  A falsy (empty) id is
    skipped by the `if (!owner) continue` guard. -/
def countControlledTilesFor (state : GameState) (pid : String) : ℚ :=
  if pid = "" then 0
  else ((state.tiles.filter (fun t => t.controller = some pid)).length : ℚ)

/-- The two buff multipliers accumulated over the buffs attached to a
    settlement (`2×` per BLESSED_HARVEST for workers, per
    INSPIRED_WORSHIP for worshippers). -/
def buffMultipliers (buffs : List SettlementBuff) (settlementId : String) :
    ℚ × ℚ :=
  (buffs.filter (fun b => b.settlementId = settlementId)).foldl
    (fun m b =>
      match b.type with
      | .BLESSED_HARVEST => (m.1 * 2, m.2)
      | .INSPIRED_WORSHIP => (m.1, m.2 * 2))
    (1, 1)

/-- The income one settlement adds to its owner's bucket during a TICK
    (the body of the accumulation loop, given the settlement's tile). -/
def settlementIncome (state : GameState) (tile : Tile) (s : Settlement) :
    Resources :=
  let workers := s.workers
  let worshippers := s.worshippers
  let mults := buffMultipliers state.buffs s.id
  let workerMultiplier := mults.1
  let worshipperMultiplier := mults.2
  let territoryTiles := countControlledTilesFor state s.owner
  let territoryBoost := 1 + min (territoryTiles * (2/100)) 2
  let bucket := emptyResourceRecord
  let bucket :=
    if 0 < workers then
      let foodGain := workers * 1
      let woodGain := workers * (1/2)
      let stoneGain := workers * (1/4)
      let foodGain :=
        match tile.terrain with
        | .Field => foodGain + workers * 1
        | .FertileField => foodGain + workers * 2
        | _ => foodGain
      let woodGain :=
        match tile.terrain with
        | .Forest => woodGain + workers * 1
        | _ => woodGain
      let stoneGain :=
        match tile.terrain with
        | .Mountain => stoneGain + workers * 1
        | _ => stoneGain
      let bucket :=
        match tile.terrain with
        | .Water =>
            bucket.set .Gold (bucket.gold +
              workers * (1/4) * workerMultiplier * territoryBoost)
        | _ => bucket
      let bucket := bucket.set .Food (bucket.food +
        foodGain * workerMultiplier * territoryBoost)
      let bucket := bucket.set .Wood (bucket.wood +
        woodGain * workerMultiplier * territoryBoost)
      bucket.set .Stone (bucket.stone +
        stoneGain * workerMultiplier * territoryBoost)
    else bucket
  if 0 < worshippers then
    bucket.set .Belief (bucket.belief +
      worshippers * worshipperMultiplier * territoryBoost)
  else bucket

/-- The income bucket accumulated for one player id.  The source builds a
    map keyed by the player ids and lets each owned settlement add to its
    owner's bucket in list order; per id that is exactly this fold. -/
def tickIncomeFor (state : GameState) (pid : String) : Resources :=
  state.settlements.foldl
    (fun acc s =>
      if s.owner = pid then
        match findTileById state s.tileId with
        | none => acc
        | some tile => addResources acc (settlementIncome state tile s)
      else acc)
    emptyResourceRecord

/-- Total population of a player's settlements (`popByPlayer` with the
    `?? 0` default). -/
def popByPlayer (state : GameState) (pid : String) : ℚ :=
  state.settlements.foldl
    (fun acc s => if s.owner = pid then acc + s.population else acc) 0

def UPKEEP_PER_PERSON_PER_SECOND : ℚ := 5/100
def GROWTH_RATE_PER_SECOND : ℚ := 5/100
def GROWTH_THRESHOLD : ℚ := 10

/-- The `starvingPlayers` flag read by the growth step: the dictionary
    entry for `pid` starts `false` and is written `true` by any entry of
    the upkeep `map` with this id whose food falls short (it is never
    reset), so for a duplicated id any starving duplicate suffices;
    `false` when the id is no player's. -/
def isStarving (state : GameState) (seconds : ℚ) (pid : String) : Bool :=
  state.players.any (fun p =>
    decide (p.id = pid) &&
      (let totalPop := popByPlayer state p.id
       let requiredFood := totalPop * UPKEEP_PER_PERSON_PER_SECOND * seconds
       decide (0 < totalPop) && decide (0 < requiredFood) &&
         decide (p.resources.get .Food < requiredFood)))

/-- One player's upkeep step (the body of the upkeep `map`). -/
def upkeepPlayer (state : GameState) (seconds : ℚ) (player : Player) :
    Player :=
  let totalPop := popByPlayer state player.id
  if totalPop ≤ 0 then player
  else
    let requiredFood := totalPop * UPKEEP_PER_PERSON_PER_SECOND * seconds
    let currentFood := player.resources.get .Food
    if requiredFood ≤ 0 then player
    else if requiredFood ≤ currentFood then
      { player with
        resources := subtractResources player.resources [(.Food, requiredFood)] }
    else
      { player with
        resources := subtractResources player.resources [(.Food, currentFood)] }

/-- The `while (growthProgress ≥ threshold && population < cap)` loop.
    `fuel` bounds the iteration count; the wrapper supplies
    `⌈populationCap - population⌉`, exact because every iteration raises
    `population` by 1 and requires `population < populationCap`. -/
def growthLoopAux : ℕ → Settlement → Settlement
  | 0, s => s
  | fuel + 1, s =>
      if GROWTH_THRESHOLD ≤ s.growthProgress ∧
          s.population < s.populationCap then
        growthLoopAux fuel
          { s with
            growthProgress := s.growthProgress - GROWTH_THRESHOLD,
            population := s.population + 1,
            workers := s.workers + 1 }
      else s

def growthLoop (s : Settlement) : Settlement :=
  growthLoopAux (Int.toNat ⌈s.populationCap - s.population⌉) s

/-- One settlement's growth step (the body of the growth `map`). -/
def growSettlement (starving : String → Bool) (seconds : ℚ)
    (settlement : Settlement) : Settlement :=
  if settlement.populationCap ≤ settlement.population then settlement
  else if starving settlement.owner then settlement
  else
    growthLoop
      { settlement with
        growthProgress := settlement.growthProgress +
          settlement.population * GROWTH_RATE_PER_SECOND * seconds }

/-- The auto role reallocation step run on every settlement at the end of
    a TICK (the owner's policy percentages through the role allocator). -/
def autoAllocateSettlement (state : GameState) (settlement : Settlement) :
    Settlement :=
  match getPlayer state settlement.owner with
  | none => settlement
  | some player =>
      match player.policy with
      | none => settlement
      | some policy =>
          if settlement.population ≤ 0 then settlement
          else
            let rc := computeRoleCountsFromPercents settlement.population
              policy.workersPercent policy.worshippersPercent
              policy.defendersPercent
            if rc.workers = settlement.workers ∧
                rc.worshippers = settlement.worshippers ∧
                rc.defenders = settlement.defenders then settlement
            else
              { settlement with
                workers := rc.workers,
                worshippers := rc.worshippers,
                defenders := rc.defenders }

/-- Applying one income record to a player (the income `map` body). -/
def applyIncomeToPlayer (income : Resources) (player : Player) : Player :=
  let newResources := addResources player.resources income
  let newBelief := newResources.get .Belief
  { player with
    resources := newResources,
    belief := newBelief,
    maxBeliefEver := max player.maxBeliefEver newBelief }

/-! ## Reducer branches

The `switch` of `reduceGameState` is split into one function per case;
`reduceGameState` dispatches on the action kind exactly as the source
`switch` does.  The source draws fresh entity ids from a module-level
counter; that external counter state is passed in as `freshId` (at most
one entity is created per reduction). -/

def reduceNoop (state : GameState) (action : PlayerAction) : GameState :=
  { state with
    currentTimeMs := max state.currentTimeMs action.clientTimeMs }

def reduceTick (state : GameState) (action : PlayerAction) : GameState :=
  let deltaMs :=
    match action.payload with
    | .tick d => d
    | _ => 1000
  let seconds := deltaMs / 1000
  let nextTime := state.currentTimeMs + deltaMs
  let state := { state with currentTimeMs := nextTime }
  let activeBuffs := state.buffs.filter (fun b => nextTime < b.expiresAtMs)
  let state := { state with buffs := activeBuffs }
  let state := assignTileControllers state
  if state.phase ≠ .RUNNING then state
  else
    -- apply the per-player income buckets
    let state :=
      { state with
        players := state.players.map (fun player =>
          applyIncomeToPlayer (tickIncomeFor state player.id) player) }
    -- food upkeep; the starvation verdicts are computed from the same
    -- pre-upkeep players the map runs over
    let starving := fun pid => isStarving state seconds pid
    let afterUpkeep :=
      { state with
        players := state.players.map (upkeepPlayer state seconds) }
    -- population growth, gated by the starvation flags
    let afterGrowth :=
      { afterUpkeep with
        settlements := afterUpkeep.settlements.map
          (growSettlement starving seconds) }
    -- auto role reallocation from each owner's faction policy
    { afterGrowth with
      settlements := afterGrowth.settlements.map
        (autoAllocateSettlement afterGrowth) }

/-- The body of the player `map` that awards the placement victory
    point. -/
def vpBump (playerId : String) (p : Player) : Player :=
  if p.id = playerId then
    { p with victoryPoints := p.victoryPoints + 1 }
  else p

lemma vpBump_id (playerId : String) (p : Player) :
    (vpBump playerId p).id = p.id := by
  rw [vpBump]
  split <;> rfl

lemma vpBump_isNpc (playerId : String) (p : Player) :
    (vpBump playerId p).isNpc = p.isNpc := by
  rw [vpBump]
  split <;> rfl

/-- JS truthiness of the optional `settlementId` string in the occupied-tile
    guard `if (tile.terrain === "Water" || tile.settlementId)`: both
    `undefined` and the empty string are falsy. -/
def truthyOptStr : Option String → Bool
  | none => false
  | some s => decide (s ≠ "")

def reducePlaceStartingSettlement (freshId : String) (state : GameState)
    (action : PlayerAction) : GameState :=
  match getPlayer state action.playerId with
  | none => state
  | some player =>
    if 0 < countSettlementsForPlayer state player.id then state
    else
      match action.payload with
      | .placeStartingSettlement tileId =>
        match findTileById state tileId with
        | none => state
        | some tile =>
          if tile.terrain = .Water ∨ truthyOptStr tile.settlementId = true
            then state
          else
            let settlementId := freshId
            let newSettlement : Settlement :=
              { id := settlementId, owner := player.id, tileId := tile.id,
                level := 1, population := 10, workers := 6,
                worshippers := 2, defenders := 2,
                populationCap := 20, growthProgress := 0 }
            let state :=
              { state with
                tiles := state.tiles.map (fun (t : Tile) =>
                  if t.id = tile.id then
                    { t with settlementId := some settlementId,
                             controller := some action.playerId }
                  else t),
                settlements := state.settlements ++ [newSettlement] }
            let state :=
              { state with
                players := state.players.map (vpBump player.id) }
            let humanPlayers : List Player := state.players.filter (fun p => !p.isNpc)
            let npcPlayers : List Player := state.players.filter (fun p => p.isNpc)
            let anyHumanReady : Bool :=
              humanPlayers.any (fun p => playerHasSettlement state p.id)
            let allNpcsReady : Bool :=
              decide (npcPlayers.length = 0) ||
                npcPlayers.all (fun p => playerHasSettlement state p.id)
            let state :=
              if anyHumanReady && allNpcsReady &&
                  decide (state.phase ≠ GamePhase.RUNNING) then
                { state with phase := .RUNNING }
              else state
            { state with
              currentTimeMs := max state.currentTimeMs action.clientTimeMs }
      | _ => state

def reduceBuildSettlement (freshId : String) (state : GameState)
    (action : PlayerAction) : GameState :=
  match action.payload with
  | .buildSettlement tileId =>
    if state.phase ≠ .RUNNING then state
    else
      match findTileById state tileId with
      | none => state
      | some tile =>
        if tile.terrain = .Water ∨ truthyOptStr tile.settlementId = true
          then state
        else
          match getPlayer state action.playerId with
          | none => state
          | some player =>
            let mySettlements :=
              state.settlements.filter (fun s => s.owner = player.id)
            if mySettlements.length = 0 then state
            else if ¬ mySettlements.any (fun s =>
                match findTileById state s.tileId with
                | none => false
                | some sTile => hexDistance sTile.coord tile.coord ≤ 3) then
              state
            else
              let food := player.resources.get .Food
              let wood := player.resources.get .Wood
              let stone := player.resources.get .Stone
              if food < 100 ∨ wood < 100 ∨ stone < 50 then state
              else
                let state :=
                  { state with
                    players := state.players.map (fun (p : Player) =>
                      if p.id = player.id then
                        { p with resources := (subtractResources
                            p.resources
                            [(.Food, 100), (.Wood, 100), (.Stone, 50)]) }
                      else p) }
                let settlement : Settlement :=
                  { id := freshId, owner := action.playerId,
                    tileId := tile.id, population := 5, workers := 3,
                    worshippers := 1, defenders := 1, level := 1,
                    populationCap := 15, growthProgress := 0 }
                let state :=
                  { state with
                    settlements := state.settlements ++ [settlement],
                    tiles := state.tiles.map (fun (t : Tile) =>
                      if t.id = tile.id then
                        { t with settlementId := some settlement.id,
                                 controller := some action.playerId }
                      else t) }
                { state with
                  currentTimeMs :=
                    max state.currentTimeMs action.clientTimeMs }
  | _ => state

def reduceAllocateRoles (state : GameState) (action : PlayerAction) :
    GameState :=
  match action.payload with
  | .allocateRoles settlementId workersPercent worshippersPercent
      defendersPercent =>
    match findSettlementById state settlementId with
    | none => state
    | some settlement =>
      if settlement.owner ≠ action.playerId then state
      else
        let rc := computeRoleCountsFromPercents settlement.population
          workersPercent worshippersPercent defendersPercent
        let state :=
          { state with
            settlements := state.settlements.map (fun (s : Settlement) =>
              if s.id = settlement.id then
                { s with workers := rc.workers,
                         worshippers := rc.worshippers,
                         defenders := rc.defenders }
              else s) }
        { state with
          currentTimeMs := max state.currentTimeMs action.clientTimeMs }
  | _ => state

def clampPercent (v : ℚ) : ℚ := max 0 (min 100 v)

def reduceSetPolicy (state : GameState) (action : PlayerAction) :
    GameState :=
  match action.payload with
  | .setPolicy workersPercent worshippersPercent defendersPercent stance =>
    let newPolicy : FactionPolicy :=
      { workersPercent := clampPercent workersPercent,
        worshippersPercent := clampPercent worshippersPercent,
        defendersPercent := clampPercent defendersPercent,
        stance := stance }
    let state :=
      { state with
        players := state.players.map (fun (p : Player) =>
          if p.id = action.playerId then { p with policy := some newPolicy }
          else p) }
    { state with
      currentTimeMs := max state.currentTimeMs action.clientTimeMs }
  | _ => state

def deityPowerCost : DeityPowerType → ℚ
  | .BLESSED_HARVEST => 10
  | .INSPIRED_WORSHIP => 15

def DEITY_POWER_DURATION_MS : ℚ := 15000

def reduceUseDeityPower (freshId : String) (state : GameState)
    (action : PlayerAction) : GameState :=
  match action.payload with
  | .useDeityPower power settlementId =>
    match findSettlementById state settlementId with
    | none => state
    | some settlement =>
      if settlement.owner ≠ action.playerId then state
      else
        match getPlayer state action.playerId with
        | none => state
        | some player =>
          let cost := deityPowerCost power
          let currentBelief := player.resources.get .Belief
          if currentBelief < cost then state
          else
            let updatedPlayers := state.players.map (fun (p : Player) =>
              if p.id = player.id then
                let newResources :=
                  subtractResources p.resources [(.Belief, cost)]
                let newBelief := newResources.get .Belief
                { p with
                  resources := newResources,
                  belief := newBelief,
                  maxBeliefEver := max p.maxBeliefEver newBelief }
              else p)
            let newBuff : SettlementBuff :=
              { id := freshId, settlementId := settlement.id,
                owner := settlement.owner, type := power,
                expiresAtMs := state.currentTimeMs + DEITY_POWER_DURATION_MS }
            let state :=
              { state with
                players := updatedPlayers,
                buffs := state.buffs ++ [newBuff] }
            { state with
              currentTimeMs := max state.currentTimeMs action.clientTimeMs }
  | _ => state

def reduceUpgradeSettlement (state : GameState) (action : PlayerAction) :
    GameState :=
  match action.payload with
  | .upgradeSettlement settlementId =>
    match findSettlementById state settlementId with
    | none => state
    | some settlement =>
      if settlement.owner ≠ action.playerId then state
      else
        match getPlayer state action.playerId with
        | none => state
        | some player =>
          let currentWood := player.resources.get .Wood
          let currentStone := player.resources.get .Stone
          if currentWood < 50 ∨ currentStone < 50 then state
          else
            let state :=
              { state with
                players := state.players.map (fun (p : Player) =>
                  if p.id = player.id then
                    { p with resources :=
                        ((p.resources.set .Wood (currentWood - 50)).set
                          .Stone (currentStone - 50)) }
                  else p) }
            let state :=
              { state with
                settlements := state.settlements.map (fun (s : Settlement) =>
                  if s.id = settlement.id then
                    { s with level := s.level + 1,
                             populationCap := s.populationCap + 10 }
                  else s) }
            { state with
              currentTimeMs := max state.currentTimeMs action.clientTimeMs }
  | _ => state

def LOOT_FACTOR : ℚ := 2/10

/-- The loot record: `floor(defenderHolding * 0.2)` for every key of the
    attacker's resource record (all five). -/
def raidLoot (defenderResources : Resources) : Resources :=
  { food := mfloor (defenderResources.food * LOOT_FACTOR),
    wood := mfloor (defenderResources.wood * LOOT_FACTOR),
    stone := mfloor (defenderResources.stone * LOOT_FACTOR),
    gold := mfloor (defenderResources.gold * LOOT_FACTOR),
    belief := mfloor (defenderResources.belief * LOOT_FACTOR) }

/-- The committed raider count: `floor(defenders * clampedPercent / 100)`
    forced to at least 1 and at most the source settlement's defenders. -/
def raidRaiderCount (baseDefenders raiderPercent : ℚ) : ℚ :=
  let percent := max 0 (min 100 raiderPercent)
  let raiderCount := mfloor (baseDefenders * percent / 100)
  let raiderCount := if raiderCount ≤ 0 then 1 else raiderCount
  if baseDefenders < raiderCount then baseDefenders else raiderCount

/-- The body of the player `map` run when a raid loots: attacker gains
    the loot record, the named defender's ledger is clamped-subtracted by
    it, belief mirror and high-water mark updated for both. -/
def raidLootUpdate (attackerPlayer defenderPlayer : Player) (p : Player) :
    Player :=
  let loot := raidLoot defenderPlayer.resources
  if p.id = attackerPlayer.id then
    let newResources := addResources p.resources loot
    let newBelief := newResources.get .Belief
    { p with
      resources := newResources,
      belief := newBelief,
      maxBeliefEver := max p.maxBeliefEver newBelief }
  else if p.id = defenderPlayer.id then
    let newResources := subtractResources p.resources
      (resourceKeys.map (fun res => (res, loot.get res)))
    let newBelief := newResources.get .Belief
    { p with
      resources := newResources,
      belief := newBelief,
      maxBeliefEver := max p.maxBeliefEver newBelief }
  else p

/-- The body of the settlement `map` that applies raid casualties. -/
def raidSettlementUpdate (fromId targetId : String)
    (newFromDefenders newTargetDefenders newTargetPopulation : ℚ)
    (s : Settlement) : Settlement :=
  if s.id = fromId then { s with defenders := newFromDefenders }
  else if s.id = targetId then
    { s with defenders := newTargetDefenders,
             population := newTargetPopulation }
  else s

def reduceRaidSettlement (state : GameState) (action : PlayerAction) :
    GameState :=
  match action.payload with
  | .raidSettlement fromSettlementId targetSettlementId raiderPercent =>
    match findSettlementById state fromSettlementId,
        findSettlementById state targetSettlementId with
    | some fromS, some target =>
      if fromS.owner ≠ action.playerId then state
      else if fromS.owner = target.owner then state
      else
        let baseDefenders := fromS.defenders
        if baseDefenders ≤ 0 then state
        else
          let raiderCount := raidRaiderCount baseDefenders raiderPercent
          let attackPower := raiderCount
          let defensePower := target.defenders
          let resolution :
              ℚ × ℚ × ℚ × GameState :=
            if attackPower ≤ defensePower then
              (attackPower, attackPower, 0, state)
            else
              let overkill := attackPower - defensePower
              let populationLoss := min target.population overkill
              match getPlayer state fromS.owner,
                  getPlayer state target.owner with
              | some attackerPlayer, some defenderPlayer =>
                (defensePower, defensePower, populationLoss,
                  { state with
                    players := state.players.map
                      (raidLootUpdate attackerPlayer defenderPlayer) })
              | _, _ =>
                (defensePower, defensePower, populationLoss, state)
          let attackerLosses := resolution.1
          let defenderLosses := resolution.2.1
          let populationLoss := resolution.2.2.1
          let state := resolution.2.2.2
          let survivorsAttacker := max 0 (raiderCount - attackerLosses)
          let newFromDefenders :=
            baseDefenders - raiderCount + survivorsAttacker
          let newTargetDefenders := max 0 (target.defenders - defenderLosses)
          let newTargetPopulation :=
            max 0 (target.population - populationLoss)
          let state :=
            { state with
              settlements := state.settlements.map
                (raidSettlementUpdate fromS.id target.id newFromDefenders
                  newTargetDefenders newTargetPopulation) }
          { state with
            currentTimeMs := max state.currentTimeMs action.clientTimeMs }
    | _, _ => state
  | _ => state

/-- `reduceGameState`: the top-level dispatcher.  Every branch either
    returns the prior snapshot or a new one; the `UNKNOWN` kind models a
    runtime value reaching the `default` branch (a logged no-op). -/
def reduceGameState (freshId : String) (prev : GameState)
    (action : PlayerAction) : GameState :=
  match action.type with
  | .NOOP => reduceNoop prev action
  | .TICK => reduceTick prev action
  | .PLACE_STARTING_SETTLEMENT =>
      reducePlaceStartingSettlement freshId prev action
  | .BUILD_SETTLEMENT => reduceBuildSettlement freshId prev action
  | .ALLOCATE_ROLES => reduceAllocateRoles prev action
  | .SET_POLICY => reduceSetPolicy prev action
  | .USE_DEITY_POWER => reduceUseDeityPower freshId prev action
  | .UPGRADE_SETTLEMENT => reduceUpgradeSettlement prev action
  | .RAID_SETTLEMENT => reduceRaidSettlement prev action
  | .UNKNOWN _ => prev

/-! ## Helper lemmas -/

lemma distributeRemainderAux_add (population : ℚ) (n : ℕ) :
    ∀ workers assigned : ℚ, assigned + n = population →
      distributeRemainderAux population n workers assigned =
        (workers + n, population) := by
  induction n with
  | zero =>
      intro workers assigned h
      simp only [Nat.cast_zero, add_zero] at h
      simp [distributeRemainderAux, h]
  | succ n ih =>
      intro workers assigned h
      have hlt : assigned < population := by
        have : (0 : ℚ) < (n : ℚ) + 1 := by positivity
        push_cast at h
        linarith
      have h' : (assigned + 1) + n = population := by push_cast at h ⊢; linarith
      rw [distributeRemainderAux, if_pos hlt, ih (workers + 1) (assigned + 1) h']
      simp only [Prod.mk.injEq, and_true]
      push_cast
      ring

lemma distributeRemainder_eq (population workers assigned : ℚ) (n : ℕ)
    (h : assigned + n = population) :
    distributeRemainder population workers assigned = workers + n := by
  have hceil : ⌈population - assigned⌉ = (n : ℤ) := by
    have : population - assigned = (n : ℚ) := by linarith
    rw [this]
    exact_mod_cast Int.ceil_natCast n
  rw [distributeRemainder, hceil]
  simp only [Int.toNat_natCast]
  rw [distributeRemainderAux_add population n workers assigned h]

/-! ## Claim C1 -/

/-- Claim C1 as stated is false on the canonical role allocator: with a
    clamped percent sum of 0 it returns all-zero counts (not an
    all-workers split summing to the population), and the rounding
    remainder is handed entirely to `workers` with no ceiling cap (at
    population 2 and percents 1/1/1 it returns 2/0/0, though the ceiling
    of the workers share `2/3` is 1). -/
theorem computeRoleCounts_claim_counterexample :
    computeRoleCountsFromPercents 5 0 0 0 =
      { workers := 0, worshippers := 0, defenders := 0 } ∧
    (computeRoleCountsFromPercents 5 0 0 0).workers ≠ 5 ∧
    computeRoleCountsFromPercents 2 1 1 1 =
      { workers := 2, worshippers := 0, defenders := 0 } ∧
    ¬ (computeRoleCountsFromPercents 2 1 1 1).workers ≤
        ((⌈((2 : ℚ) * 1 / (1 + 1 + 1))⌉ : ℤ) : ℚ) := by
  have h1 : computeRoleCountsFromPercents 5 0 0 0 =
      { workers := 0, worshippers := 0, defenders := 0 } := by
    norm_num [computeRoleCountsFromPercents]
  have h2 : computeRoleCountsFromPercents 2 1 1 1 =
      { workers := 2, worshippers := 0, defenders := 0 } := by
    norm_num +decide [computeRoleCountsFromPercents, mfloor,
      distributeRemainder, distributeRemainderAux]
  have hc : ⌈((2 : ℚ) * 1 / (1 + 1 + 1))⌉ = 1 := by
    rw [show ((2 : ℚ) * 1 / (1 + 1 + 1)) = 2/3 by norm_num]
    rw [Int.ceil_eq_iff] <;> norm_num
  refine ⟨h1, by rw [h1]; norm_num, h2, by rw [h2, hc]; norm_num⟩

/-- Claim C1, amended: for a population `p ≥ 0` and percentage inputs in
    `[0,100]` (the canonical allocator does not clamp), when the percent
    sum is 0 — or the population is 0 — the allocator returns all-zero
    counts; otherwise worshippers and defenders each get the floor of
    their proportional share, the whole flooring remainder goes to
    `workers` (no per-role ceiling cap), and the three non-negative
    integer counts sum exactly to `p`. -/
theorem computeRoleCounts_amended (p : ℕ) (wP wpP dP : ℚ)
    (hw0 : 0 ≤ wP) (hwp0 : 0 ≤ wpP) (hd0 : 0 ≤ dP)
    (hw1 : wP ≤ 100) (hwp1 : wpP ≤ 100) (hd1 : dP ≤ 100) :
    (wP + wpP + dP = 0 ∨ p = 0 →
      computeRoleCountsFromPercents p wP wpP dP =
        { workers := 0, worshippers := 0, defenders := 0 }) ∧
    (0 < wP + wpP + dP → 0 < p →
      computeRoleCountsFromPercents p wP wpP dP =
        { workers := (p : ℚ) - ((⌊(p : ℚ) * wpP / (wP + wpP + dP)⌋ : ℤ) : ℚ)
            - ((⌊(p : ℚ) * dP / (wP + wpP + dP)⌋ : ℤ) : ℚ),
          worshippers := ((⌊(p : ℚ) * wpP / (wP + wpP + dP)⌋ : ℤ) : ℚ),
          defenders := ((⌊(p : ℚ) * dP / (wP + wpP + dP)⌋ : ℤ) : ℚ) } ∧
      0 ≤ ⌊(p : ℚ) * wpP / (wP + wpP + dP)⌋ ∧
      0 ≤ ⌊(p : ℚ) * dP / (wP + wpP + dP)⌋ ∧
      ((⌊(p : ℚ) * wpP / (wP + wpP + dP)⌋ + ⌊(p : ℚ) * dP / (wP + wpP + dP)⌋ : ℤ) : ℚ)
        ≤ (p : ℚ)) := by
  constructor
  · rintro (h | h) <;>
      · rw [computeRoleCountsFromPercents, if_pos]
        · simp [h]
  · intro ht hp
    set t : ℚ := wP + wpP + dP with htdef
    have hpq : (0 : ℚ) < (p : ℚ) := by exact_mod_cast hp
    have hguard : ¬ (t ≤ 0 ∨ (p : ℚ) ≤ 0) := by
      push_neg
      exact ⟨ht, hpq⟩
    have hshare : ∀ x : ℚ, (x / (t / 100) / 100) * (p : ℚ) = (p : ℚ) * x / t := by
      intro x
      field_simp
      ring
    have hne : t ≠ 0 := ne_of_gt ht
    -- the three raw shares are non-negative and sum to `p`
    have hraw_sum : (p : ℚ) * wP / t + (p : ℚ) * wpP / t + (p : ℚ) * dP / t
        = (p : ℚ) := by
      field_simp
      ring
    have hraww : (0 : ℚ) ≤ (p : ℚ) * wP / t := by positivity
    have hrawwp : (0 : ℚ) ≤ (p : ℚ) * wpP / t := by positivity
    have hrawd : (0 : ℚ) ≤ (p : ℚ) * dP / t := by positivity
    have hfw := Int.floor_le ((p : ℚ) * wP / t)
    have hfwp := Int.floor_le ((p : ℚ) * wpP / t)
    have hfd := Int.floor_le ((p : ℚ) * dP / t)
    have hw_nonneg : 0 ≤ ⌊(p : ℚ) * wP / t⌋ :=
      Int.floor_nonneg.mpr (by positivity)
    have hwp_nonneg : 0 ≤ ⌊(p : ℚ) * wpP / t⌋ :=
      Int.floor_nonneg.mpr (by positivity)
    have hd_nonneg : 0 ≤ ⌊(p : ℚ) * dP / t⌋ :=
      Int.floor_nonneg.mpr (by positivity)
    -- the floors sum to at most `p`
    have hsumle : ((⌊(p : ℚ) * wP / t⌋ + ⌊(p : ℚ) * wpP / t⌋ +
        ⌊(p : ℚ) * dP / t⌋ : ℤ) : ℚ) ≤ (p : ℚ) := by
      push_cast
      linarith
    have hsumleZ : ⌊(p : ℚ) * wP / t⌋ + ⌊(p : ℚ) * wpP / t⌋ +
        ⌊(p : ℚ) * dP / t⌋ ≤ (p : ℤ) := by
      exact_mod_cast hsumle
    -- the remainder handed to workers
    set rem : ℤ := (p : ℤ) - (⌊(p : ℚ) * wP / t⌋ + ⌊(p : ℚ) * wpP / t⌋ +
      ⌊(p : ℚ) * dP / t⌋) with hremdef
    have hrem_nonneg : 0 ≤ rem := by omega
    have hrem_cast : ((rem.toNat : ℕ) : ℚ) =
        (p : ℚ) - (((⌊(p : ℚ) * wP / t⌋ + ⌊(p : ℚ) * wpP / t⌋ +
          ⌊(p : ℚ) * dP / t⌋ : ℤ)) : ℚ) := by
      have : ((rem.toNat : ℤ) : ℚ) = (rem : ℚ) := by
        exact_mod_cast congrArg (fun z : ℤ => (z : ℚ)) (Int.toNat_of_nonneg hrem_nonneg)
      push_cast at this ⊢
      push_cast [hremdef] at this
      linarith
    have hloop := distributeRemainder_eq (p : ℚ)
      ((⌊(p : ℚ) * wP / t⌋ : ℤ) : ℚ)
      (((⌊(p : ℚ) * wP / t⌋ : ℤ) : ℚ) + ((⌊(p : ℚ) * wpP / t⌋ : ℤ) : ℚ) +
        ((⌊(p : ℚ) * dP / t⌋ : ℤ) : ℚ))
      rem.toNat
      (by rw [hrem_cast]; push_cast; ring)
    refine ⟨?_, hwp_nonneg, hd_nonneg, by push_cast; linarith⟩
    rw [computeRoleCountsFromPercents, if_neg hguard]
    simp only [mfloor, hshare]
    rw [RoleCounts.mk.injEq]
    refine ⟨?_, rfl, rfl⟩
    rw [hloop, hrem_cast]
    push_cast
    ring

/-- Witness for the amended C1 at population 7 and percents 60/20/20. -/
theorem computeRoleCounts_amended_witness :
    computeRoleCountsFromPercents 7 60 20 20 =
      { workers := 5, worshippers := 1, defenders := 1 } := by
  have h := (computeRoleCounts_amended 7 60 20 20 (by norm_num) (by norm_num)
    (by norm_num) (by norm_num) (by norm_num) (by norm_num)).2
    (by norm_num) (by norm_num)
  have h1 := h.1
  have hf : ⌊((7 : ℕ) : ℚ) * 20 / (60 + 20 + 20)⌋ = 1 := by
    rw [show ((7 : ℕ) : ℚ) * 20 / (60 + 20 + 20) = 7/5 by norm_num]
    norm_num
  rw [hf] at h1
  norm_num at h1
  convert h1 using 2 <;> norm_num

lemma find?_map_of_pred_preserved {α : Type} (f : α → α) (q : α → Bool)
    (hq : ∀ x, q (f x) = q x) (l : List α) :
    (l.map f).find? q = (l.find? q).map f := by
  rw [List.find?_map, show q ∘ f = q from funext fun x => hq x]

/-! ## Claim C10 -/

/-- Claim C10 (confirmed): the canonical reducer applies no phase
    precondition to `PLACE_STARTING_SETTLEMENT` — from a RUNNING (or
    GAME_OVER) snapshot, a placement by an existing player who owns no
    settlement, on an existing non-water tile with no settlement, still
    appends a fresh starting settlement and awards the placing player one
    victory point. -/
theorem placeStartingSettlement_no_phase_guard
    (freshId : String) (state : GameState) (aid pid tid : String) (ct : ℚ)
    (player : Player) (tile : Tile)
    (hphase : state.phase = .RUNNING ∨ state.phase = .GAME_OVER)
    (hplayer : getPlayer state pid = some player)
    (hnone : countSettlementsForPlayer state player.id = 0)
    (htile : findTileById state tid = some tile)
    (hwater : tile.terrain ≠ .Water)
    (hocc : tile.settlementId = none) :
    (reduceGameState freshId state
        { id := aid, playerId := pid, type := .PLACE_STARTING_SETTLEMENT,
          payload := .placeStartingSettlement tid,
          clientTimeMs := ct }).settlements =
      state.settlements ++
        [{ id := freshId, owner := player.id, tileId := tile.id, level := 1,
           population := 10, workers := 6, worshippers := 2, defenders := 2,
           populationCap := 20, growthProgress := 0 }] ∧
    (reduceGameState freshId state
        { id := aid, playerId := pid, type := .PLACE_STARTING_SETTLEMENT,
          payload := .placeStartingSettlement tid,
          clientTimeMs := ct }).players =
      state.players.map (fun p =>
        if p.id = player.id then
          { p with victoryPoints := p.victoryPoints + 1 }
        else p) := by
  rw [reduceGameState]
  simp only [reducePlaceStartingSettlement, hplayer, htile, hnone]
  rw [if_neg (by omega)]
  rw [if_neg (by simp [hwater, hocc, truthyOptStr])]
  constructor <;>
    · dsimp only
      split <;> rfl

/-- Witness for C10: a concrete RUNNING snapshot with one empty Field tile
    and one settlement-less player accepts the placement. -/
theorem placeStartingSettlement_no_phase_guard_witness :
    (reduceGameState "id_9"
        { id := "g",
          tiles := [{ id := "t0", coord := { q := 0, r := 0 },
                      terrain := .Field, settlementId := none,
                      controller := none }],
          settlements := [],
          players := [{ id := "P1", name := "P1",
                        resources := { food := 0, wood := 0, stone := 0,
                                       gold := 0, belief := 0 },
                        victoryPoints := 0, belief := 0, maxBeliefEver := 0,
                        policy := none, isNpc := false }],
          phase := .RUNNING, currentTimeMs := 0, winnerId := none,
          buffs := [] }
        { id := "a", playerId := "P1", type := .PLACE_STARTING_SETTLEMENT,
          payload := .placeStartingSettlement "t0",
          clientTimeMs := 0 }).settlements =
      [{ id := "id_9", owner := "P1", tileId := "t0", level := 1,
         population := 10, workers := 6, worshippers := 2, defenders := 2,
         populationCap := 20, growthProgress := 0 }] := by
  have h := placeStartingSettlement_no_phase_guard "id_9"
    { id := "g",
      tiles := [{ id := "t0", coord := { q := 0, r := 0 },
                  terrain := .Field, settlementId := none,
                  controller := none }],
      settlements := [],
      players := [{ id := "P1", name := "P1",
                    resources := { food := 0, wood := 0, stone := 0,
                                   gold := 0, belief := 0 },
                    victoryPoints := 0, belief := 0, maxBeliefEver := 0,
                    policy := none, isNpc := false }],
      phase := .RUNNING, currentTimeMs := 0, winnerId := none, buffs := [] }
    "a" "P1" "t0" 0
    { id := "P1", name := "P1",
      resources := { food := 0, wood := 0, stone := 0, gold := 0,
                     belief := 0 },
      victoryPoints := 0, belief := 0, maxBeliefEver := 0,
      policy := none, isNpc := false }
    { id := "t0", coord := { q := 0, r := 0 }, terrain := .Field,
      settlementId := none, controller := none }
    (Or.inl rfl) (by rfl) (by rfl) (by rfl) (by simp) (by rfl)
  rw [h.1]
  rfl

lemma Resources.get_set (r : Resources) (res res' : ResourceType) (v : ℚ) :
    (r.set res v).get res' = if res' = res then v else r.get res' := by
  cases res <;> cases res' <;> simp [Resources.get, Resources.set]

lemma subtractResources_single (r : Resources) (res : ResourceType) (c : ℚ) :
    subtractResources r [(res, c)] = r.set res (max 0 (r.get res - c)) := rfl

/-! ## Claim C5 -/

/-- Claim C5 (confirmed): a USE_DEITY_POWER intent returns the snapshot
    unchanged when the caster does not own the target settlement or holds
    less Belief than the fixed cost (10 for BLESSED_HARVEST, 15 for
    INSPIRED_WORSHIP); otherwise it deducts exactly that cost from the
    caster's Belief ledger and appends exactly one buff on the target
    settlement expiring at the current clock plus 15000 ms. -/
theorem useDeityPower_spec
    (freshId : String) (state : GameState) (action : PlayerAction)
    (power : DeityPowerType) (sid : String)
    (htype : action.type = .USE_DEITY_POWER)
    (hpay : action.payload = .useDeityPower power sid) :
    (∀ settlement, findSettlementById state sid = some settlement →
      settlement.owner ≠ action.playerId →
      reduceGameState freshId state action = state) ∧
    (∀ settlement player,
      findSettlementById state sid = some settlement →
      settlement.owner = action.playerId →
      getPlayer state action.playerId = some player →
      player.resources.get .Belief < deityPowerCost power →
      reduceGameState freshId state action = state) ∧
    (∀ settlement player,
      findSettlementById state sid = some settlement →
      settlement.owner = action.playerId →
      getPlayer state action.playerId = some player →
      deityPowerCost power ≤ player.resources.get .Belief →
      (reduceGameState freshId state action).buffs =
        state.buffs ++
          [{ id := freshId, settlementId := settlement.id,
             owner := settlement.owner, type := power,
             expiresAtMs := state.currentTimeMs + DEITY_POWER_DURATION_MS }] ∧
      getPlayer (reduceGameState freshId state action) action.playerId =
        some { player with
          resources := player.resources.set .Belief
            (player.resources.get .Belief - deityPowerCost power),
          belief := player.resources.get .Belief - deityPowerCost power,
          maxBeliefEver := max player.maxBeliefEver
            (player.resources.get .Belief - deityPowerCost power) }) := by
  rcases action with ⟨aid, apid, atype, apay, act⟩
  simp only at htype hpay
  subst htype
  subst hpay
  simp only [reduceGameState]
  refine ⟨?_, ?_, ?_⟩
  · intro settlement hfind hown
    simp only [reduceUseDeityPower, hfind, if_pos hown]
  · intro settlement player hfind hown hplayer hlow
    simp only [reduceUseDeityPower, hfind, hplayer, if_neg (not_not_intro hown),
      if_pos hlow]
  · intro settlement player hfind hown hplayer hge
    have hnotlow : ¬ player.resources.get .Belief < deityPowerCost power :=
      not_lt.mpr hge
    simp only [reduceUseDeityPower, hfind, hplayer, if_neg (not_not_intro hown),
      if_neg hnotlow]
    have hmax : max 0 (player.resources.get .Belief - deityPowerCost power) =
        player.resources.get .Belief - deityPowerCost power := by
      apply max_eq_right
      linarith
    have hget : ((player.resources.set .Belief
        (player.resources.get .Belief - deityPowerCost power)).get .Belief) =
        player.resources.get .Belief - deityPowerCost power := by
      rw [Resources.get_set, if_pos rfl]
    constructor
    · trivial
    · rw [getPlayer]
      dsimp only
      rw [find?_map_of_pred_preserved _ _ (by
        intro x
        cases x
        dsimp only
        split <;> rfl)]
      rw [show (state.players.find? fun p => decide (p.id = apid)) =
        getPlayer state apid from rfl, hplayer]
      simp only [Option.map_some']
      congr 1
      dsimp only
      rw [if_pos trivial, subtractResources_single, hmax, hget]

/-- Witness for C5: a concrete snapshot where the caster owns the target
    settlement and holds exactly enough Belief for BLESSED_HARVEST. -/
theorem useDeityPower_spec_witness :
    (reduceGameState "id_7"
        { id := "g", tiles := [],
          settlements := [{ id := "s1", owner := "P1", tileId := "t0",
                            level := 1, population := 10, workers := 6,
                            worshippers := 2, defenders := 2,
                            populationCap := 20, growthProgress := 0 }],
          players := [{ id := "P1", name := "P1",
                        resources := { food := 0, wood := 0, stone := 0,
                                       gold := 0, belief := 10 },
                        victoryPoints := 0, belief := 10, maxBeliefEver := 10,
                        policy := none, isNpc := false }],
          phase := .RUNNING, currentTimeMs := 2000, winnerId := none,
          buffs := [] }
        { id := "a", playerId := "P1", type := .USE_DEITY_POWER,
          payload := .useDeityPower .BLESSED_HARVEST "s1",
          clientTimeMs := 2000 }).buffs =
      [{ id := "id_7", settlementId := "s1", owner := "P1",
         type := .BLESSED_HARVEST, expiresAtMs := 2000 + 15000 }] := by
  have h := (useDeityPower_spec "id_7"
    { id := "g", tiles := [],
      settlements := [{ id := "s1", owner := "P1", tileId := "t0",
                        level := 1, population := 10, workers := 6,
                        worshippers := 2, defenders := 2,
                        populationCap := 20, growthProgress := 0 }],
      players := [{ id := "P1", name := "P1",
                    resources := { food := 0, wood := 0, stone := 0,
                                   gold := 0, belief := 10 },
                    victoryPoints := 0, belief := 10, maxBeliefEver := 10,
                    policy := none, isNpc := false }],
      phase := .RUNNING, currentTimeMs := 2000, winnerId := none,
      buffs := [] }
    { id := "a", playerId := "P1", type := .USE_DEITY_POWER,
      payload := .useDeityPower .BLESSED_HARVEST "s1",
      clientTimeMs := 2000 }
    .BLESSED_HARVEST "s1" rfl rfl).2.2
    { id := "s1", owner := "P1", tileId := "t0", level := 1,
      population := 10, workers := 6, worshippers := 2, defenders := 2,
      populationCap := 20, growthProgress := 0 }
    { id := "P1", name := "P1",
      resources := { food := 0, wood := 0, stone := 0, gold := 0,
                     belief := 10 },
      victoryPoints := 0, belief := 10, maxBeliefEver := 10,
      policy := none, isNpc := false }
    (by rfl) (by rfl) (by rfl)
    (by norm_num [Resources.get, deityPowerCost])
  rw [h.1]
  rfl

/-! ## Raid machinery lemmas -/

lemma addResources_get (a b : Resources) (res : ResourceType) :
    (addResources a b).get res = a.get res + b.get res := by
  cases res <;> rfl

lemma subtractResources_loot_get (a b : Resources) (res : ResourceType) :
    (subtractResources a (resourceKeys.map (fun r => (r, b.get r)))).get res =
      max 0 (a.get res - b.get res) := by
  cases res <;> rfl

lemma raidLoot_get (r : Resources) (res : ResourceType) :
    (raidLoot r).get res = mfloor (r.get res * LOOT_FACTOR) := by
  cases res <;> rfl

lemma raidSettlementUpdate_id (fid tid : String) (a b c : ℚ)
    (s : Settlement) : (raidSettlementUpdate fid tid a b c s).id = s.id := by
  rw [raidSettlementUpdate]
  split
  · rfl
  · split <;> rfl

lemma raidLootUpdate_id (ap dp p : Player) :
    (raidLootUpdate ap dp p).id = p.id := by
  rw [raidLootUpdate]
  dsimp only
  split
  · rfl
  · split <;> rfl

lemma findSettlementById_id (state : GameState) (sid : String)
    (s : Settlement) (h : findSettlementById state sid = some s) :
    s.id = sid := by
  have := List.find?_some h
  simpa using this

lemma findSettlementById_mem (state : GameState) (sid : String)
    (s : Settlement) (h : findSettlementById state sid = some s) :
    s ∈ state.settlements :=
  List.mem_of_find?_eq_some h

lemma getPlayer_id (state : GameState) (pid : String) (p : Player)
    (h : getPlayer state pid = some p) : p.id = pid := by
  have := List.find?_some h
  simpa using this

lemma getPlayer_mem (state : GameState) (pid : String) (p : Player)
    (h : getPlayer state pid = some p) : p ∈ state.players :=
  List.mem_of_find?_eq_some h

lemma raid_target_id_ne (state : GameState) (fromId targetId : String)
    (fromS target : Settlement)
    (hfrom : findSettlementById state fromId = some fromS)
    (htarget : findSettlementById state targetId = some target)
    (hdiff : fromS.owner ≠ target.owner) : target.id ≠ fromS.id := by
  intro h
  have h1 : fromS.id = fromId := findSettlementById_id _ _ _ hfrom
  have h2 : target.id = targetId := findSettlementById_id _ _ _ htarget
  have hids : fromId = targetId := by rw [← h1, ← h2, h]
  rw [hids, htarget] at hfrom
  cases hfrom
  exact hdiff rfl

/-- The full result of an accepted raid, both branches folded into `if`s
    on `raiderCount ≤ target.defenders`. -/
lemma reduceRaid_closed_form (freshId : String) (state : GameState)
    (action : PlayerAction) (fromId targetId : String) (pr : ℚ)
    (fromS target : Settlement)
    (htype : action.type = .RAID_SETTLEMENT)
    (hpay : action.payload = .raidSettlement fromId targetId pr)
    (hfrom : findSettlementById state fromId = some fromS)
    (htarget : findSettlementById state targetId = some target)
    (hown : fromS.owner = action.playerId)
    (hdiff : fromS.owner ≠ target.owner)
    (hdef : 0 < fromS.defenders) :
    reduceGameState freshId state action =
      (let rc := raidRaiderCount fromS.defenders pr
       let losses := if rc ≤ target.defenders then rc else target.defenders
       let popLoss := if rc ≤ target.defenders then 0
         else min target.population (rc - target.defenders)
       { state with
         players :=
           if rc ≤ target.defenders then state.players
           else
             match getPlayer state fromS.owner,
                 getPlayer state target.owner with
             | some ap, some dp => state.players.map (raidLootUpdate ap dp)
             | _, _ => state.players,
         settlements := state.settlements.map
           (raidSettlementUpdate fromS.id target.id
             (fromS.defenders - rc + max 0 (rc - losses))
             (max 0 (target.defenders - losses))
             (max 0 (target.population - popLoss))),
         currentTimeMs := max state.currentTimeMs action.clientTimeMs }) := by
  rcases action with ⟨aid, apid, atype, apay, act⟩
  simp only at htype hpay hown
  subst htype
  subst hpay
  simp only [reduceGameState, reduceRaidSettlement, hfrom, htarget]
  rw [if_neg (not_not_intro hown), if_neg hdiff, if_neg (not_le.mpr hdef)]
  by_cases hc : raidRaiderCount fromS.defenders pr ≤ target.defenders
  · rw [if_pos hc, if_pos hc, if_pos hc, if_pos hc]
  · rw [if_neg hc, if_neg hc, if_neg hc, if_neg hc]
    cases hap : getPlayer state fromS.owner with
    | none => cases hdp : getPlayer state target.owner <;> rfl
    | some ap => cases hdp : getPlayer state target.owner <;> rfl

lemma find?_id_map_settlements (l : List Settlement)
    (f : Settlement → Settlement) (hid : ∀ s, (f s).id = s.id)
    (sid : String) :
    (l.map f).find? (fun s => s.id = sid) =
      (l.find? (fun s => s.id = sid)).map f := by
  apply find?_map_of_pred_preserved
  intro x
  simp [hid]

lemma find?_id_map_players (l : List Player)
    (f : Player → Player) (hid : ∀ p, (f p).id = p.id)
    (pid : String) :
    (l.map f).find? (fun p => p.id = pid) =
      (l.find? (fun p => p.id = pid)).map f := by
  apply find?_map_of_pred_preserved
  intro x
  simp [hid]

lemma mfloor_loot_le (x : ℚ) (hx : 0 ≤ x) : mfloor (x * LOOT_FACTOR) ≤ x := by
  have h1 : mfloor (x * LOOT_FACTOR) ≤ x * LOOT_FACTOR := Int.floor_le _
  have h2 : x * LOOT_FACTOR ≤ x := by
    rw [LOOT_FACTOR]
    nlinarith
  linarith

lemma mfloor_loot_nonneg (x : ℚ) (hx : 0 ≤ x) :
    0 ≤ mfloor (x * LOOT_FACTOR) := by
  have : (0 : ℚ) ≤ x * LOOT_FACTOR := by
    rw [LOOT_FACTOR]
    positivity
  unfold mfloor
  exact_mod_cast Int.floor_nonneg.mpr this

/-! ## Claim C3 -/

/-- Claim C3 (confirmed): for every accepted raid, with committed raider
    count `rc = raidRaiderCount`, if `rc` is at most the target's
    defenders both sides lose exactly `rc` with no loot transfer and no
    population loss; if `rc` exceeds the defenders, all target defenders
    die, the attacker loses exactly the defender count, the overkill is
    applied as population loss capped at the target's population, and for
    every resource kind the attacker gains `floor(20%)` of the defender's
    holding while the defender's ledger drops by exactly that amount. -/
theorem raid_resolution_spec (freshId : String) (state : GameState)
    (action : PlayerAction) (fromId targetId : String) (pr : ℚ)
    (fromS target : Settlement) (ap dp : Player)
    (htype : action.type = .RAID_SETTLEMENT)
    (hpay : action.payload = .raidSettlement fromId targetId pr)
    (hfrom : findSettlementById state fromId = some fromS)
    (htarget : findSettlementById state targetId = some target)
    (hown : fromS.owner = action.playerId)
    (hdiff : fromS.owner ≠ target.owner)
    (hdef : 0 < fromS.defenders)
    (hap : getPlayer state fromS.owner = some ap)
    (hdp : getPlayer state target.owner = some dp)
    (hdpnn : ∀ res, 0 ≤ dp.resources.get res)
    (hpopnn : 0 ≤ target.population) :
    (raidRaiderCount fromS.defenders pr ≤ target.defenders →
      (reduceGameState freshId state action).players = state.players ∧
      findSettlementById (reduceGameState freshId state action) fromId =
        some { fromS with
          defenders := fromS.defenders - raidRaiderCount fromS.defenders pr } ∧
      findSettlementById (reduceGameState freshId state action) targetId =
        some { target with
          defenders := target.defenders -
            raidRaiderCount fromS.defenders pr }) ∧
    (target.defenders < raidRaiderCount fromS.defenders pr →
      findSettlementById (reduceGameState freshId state action) fromId =
        some { fromS with
          defenders := fromS.defenders - target.defenders } ∧
      findSettlementById (reduceGameState freshId state action) targetId =
        some { target with
          defenders := 0,
          population := target.population - min target.population
            (raidRaiderCount fromS.defenders pr - target.defenders) } ∧
      (∃ ap', getPlayer (reduceGameState freshId state action) fromS.owner =
          some ap' ∧
        ∀ res, ap'.resources.get res = ap.resources.get res +
          mfloor (dp.resources.get res * LOOT_FACTOR)) ∧
      (∃ dp', getPlayer (reduceGameState freshId state action) target.owner =
          some dp' ∧
        ∀ res, dp'.resources.get res = dp.resources.get res -
          mfloor (dp.resources.get res * LOOT_FACTOR))) := by
  rw [reduceRaid_closed_form freshId state action fromId targetId pr fromS
    target htype hpay hfrom htarget hown hdiff hdef]
  dsimp only
  have hne := raid_target_id_ne state fromId targetId fromS target hfrom
    htarget hdiff
  constructor
  · intro h1
    rw [if_pos h1, if_pos h1, if_pos h1]
    refine ⟨rfl, ?_, ?_⟩
    · rw [findSettlementById]
      dsimp only
      rw [find?_id_map_settlements _ _
        (raidSettlementUpdate_id fromS.id target.id _ _ _)]
      rw [show (state.settlements.find? fun s => decide (s.id = fromId)) =
        findSettlementById state fromId from rfl, hfrom]
      rw [Option.map_some']
      rw [raidSettlementUpdate, if_pos rfl]
      have harith : fromS.defenders - raidRaiderCount fromS.defenders pr +
          max 0 (raidRaiderCount fromS.defenders pr -
            raidRaiderCount fromS.defenders pr) =
          fromS.defenders - raidRaiderCount fromS.defenders pr := by
        simp
      rw [harith]
    · rw [findSettlementById]
      dsimp only
      rw [find?_id_map_settlements _ _
        (raidSettlementUpdate_id fromS.id target.id _ _ _)]
      rw [show (state.settlements.find? fun s => decide (s.id = targetId)) =
        findSettlementById state targetId from rfl, htarget]
      rw [Option.map_some']
      rw [raidSettlementUpdate, if_neg hne, if_pos rfl]
      have hd : max 0 (target.defenders - raidRaiderCount fromS.defenders pr)
          = target.defenders - raidRaiderCount fromS.defenders pr :=
        max_eq_right (by linarith)
      have hp : max 0 (target.population - 0) = target.population := by
        rw [sub_zero]
        exact max_eq_right hpopnn
      rw [hd, hp]
  · intro h2
    have h2' : ¬ raidRaiderCount fromS.defenders pr ≤ target.defenders :=
      not_le.mpr h2
    rw [if_neg h2', if_neg h2', if_neg h2']
    simp only [hap, hdp]
    refine ⟨?_, ?_, ?_, ?_⟩
    · rw [findSettlementById]
      dsimp only
      rw [find?_id_map_settlements _ _
        (raidSettlementUpdate_id fromS.id target.id _ _ _)]
      rw [show (state.settlements.find? fun s => decide (s.id = fromId)) =
        findSettlementById state fromId from rfl, hfrom]
      rw [Option.map_some']
      rw [raidSettlementUpdate, if_pos rfl]
      have harith : fromS.defenders - raidRaiderCount fromS.defenders pr +
          max 0 (raidRaiderCount fromS.defenders pr - target.defenders) =
          fromS.defenders - target.defenders := by
        rw [max_eq_right (by linarith)]
        ring
      rw [harith]
    · rw [findSettlementById]
      dsimp only
      rw [find?_id_map_settlements _ _
        (raidSettlementUpdate_id fromS.id target.id _ _ _)]
      rw [show (state.settlements.find? fun s => decide (s.id = targetId)) =
        findSettlementById state targetId from rfl, htarget]
      rw [Option.map_some']
      rw [raidSettlementUpdate, if_neg hne, if_pos rfl]
      have hd : max 0 (target.defenders - target.defenders) = 0 := by simp
      have hp : max 0 (target.population - min target.population
          (raidRaiderCount fromS.defenders pr - target.defenders)) =
          target.population - min target.population
            (raidRaiderCount fromS.defenders pr - target.defenders) :=
        max_eq_right (by
          have := min_le_left target.population
            (raidRaiderCount fromS.defenders pr - target.defenders)
          linarith)
      rw [hd, hp]
    · refine ⟨raidLootUpdate ap dp ap, ?_, ?_⟩
      · rw [getPlayer]
        dsimp only
        rw [find?_id_map_players _ _ (raidLootUpdate_id ap dp)]
        rw [show (state.players.find? fun p => decide (p.id = fromS.owner)) =
          getPlayer state fromS.owner from rfl, hap]
        rw [Option.map_some']
      · intro res
        rw [raidLootUpdate]
        dsimp only
        rw [if_pos rfl]
        rw [addResources_get, raidLoot_get]
    · refine ⟨raidLootUpdate ap dp dp, ?_, ?_⟩
      · rw [getPlayer]
        dsimp only
        rw [find?_id_map_players _ _ (raidLootUpdate_id ap dp)]
        rw [show (state.players.find? fun p => decide (p.id = target.owner)) =
          getPlayer state target.owner from rfl, hdp]
        rw [Option.map_some']
      · intro res
        have hdpid : dp.id ≠ ap.id := by
          rw [getPlayer_id state fromS.owner ap hap,
            getPlayer_id state target.owner dp hdp]
          exact fun h => hdiff h.symm
        rw [raidLootUpdate]
        dsimp only
        rw [if_neg hdpid, if_pos rfl]
        rw [subtractResources_loot_get, raidLoot_get]
        exact max_eq_right (by
          have := mfloor_loot_le (dp.resources.get res) (hdpnn res)
          linarith)

/-! Concrete raid fixture: 12 source defenders, commitment 50% (6
    raiders) against 4 target defenders and population 8. -/

def raidSettA : Settlement :=
  { id := "sA", owner := "P1", tileId := "t0", level := 1,
    population := 20, workers := 5, worshippers := 3, defenders := 12,
    populationCap := 20, growthProgress := 0 }

def raidSettB : Settlement :=
  { id := "sB", owner := "P2", tileId := "t1", level := 1,
    population := 8, workers := 2, worshippers := 2, defenders := 4,
    populationCap := 20, growthProgress := 0 }

def raidPlayerA : Player :=
  { id := "P1", name := "P1",
    resources := { food := 0, wood := 0, stone := 0, gold := 0, belief := 0 },
    victoryPoints := 0, belief := 0, maxBeliefEver := 0,
    policy := none, isNpc := false }

def raidPlayerB : Player :=
  { id := "P2", name := "P2",
    resources := { food := 7, wood := 11, stone := 13, gold := 3,
                   belief := 9 },
    victoryPoints := 0, belief := 9, maxBeliefEver := 9,
    policy := none, isNpc := false }

def raidState : GameState :=
  { id := "g", tiles := [], settlements := [raidSettA, raidSettB],
    players := [raidPlayerA, raidPlayerB],
    phase := .RUNNING, currentTimeMs := 0, winnerId := none, buffs := [] }

def raidAction : PlayerAction :=
  { id := "a", playerId := "P1", type := .RAID_SETTLEMENT,
    payload := .raidSettlement "sA" "sB" 50, clientTimeMs := 7 }

lemma raidRaiderCount_fixture : raidRaiderCount 12 50 = 6 := by
  rw [raidRaiderCount]
  norm_num
  rw [show mfloor 6 = 6 by rw [mfloor]; norm_num]
  norm_num

/-- Witness for C3: the spec scenario — 6 raiders against 4 defenders
    destroy the defense, 2 raiders survive (source 12 → 8), population
    drops by 2 (8 → 6). -/
theorem raid_resolution_spec_witness :
    findSettlementById (reduceGameState "x" raidState raidAction) "sA" =
      some { raidSettA with defenders := 8 } ∧
    findSettlementById (reduceGameState "x" raidState raidAction) "sB" =
      some { raidSettB with defenders := 0, population := 6 } := by
  have h := (raid_resolution_spec "x" raidState raidAction "sA" "sB" 50
    raidSettA raidSettB raidPlayerA raidPlayerB rfl rfl rfl rfl rfl
    (by decide) (by norm_num [raidSettA])
    rfl rfl
    (by intro res; cases res <;> norm_num [raidPlayerB, Resources.get])
    (by norm_num [raidSettB])).2
    (by
      show raidSettB.defenders < raidRaiderCount raidSettA.defenders 50
      rw [show raidSettA.defenders = 12 from rfl, raidRaiderCount_fixture]
      norm_num [raidSettB])
  refine ⟨?_, ?_⟩
  · have h1 := h.1
    rw [show raidSettA.defenders = 12 from rfl] at h1
    rw [h1]
    norm_num [raidSettB]
  · have h2 := h.2.1
    rw [show raidSettA.defenders = 12 from rfl, raidRaiderCount_fixture]
      at h2
    rw [h2]
    norm_num [raidSettB]

lemma raidRaiderCount_bounds (d pr : ℚ) (n : ℕ) (hd : d = (n : ℚ))
    (hpos : 0 < d) :
    1 ≤ raidRaiderCount d pr ∧ raidRaiderCount d pr ≤ d := by
  have hn0 : n ≠ 0 := by
    intro h
    rw [h] at hd
    rw [hd] at hpos
    norm_num at hpos
  have hd1 : (1 : ℚ) ≤ d := by
    rw [hd]
    exact_mod_cast Nat.one_le_iff_ne_zero.mpr hn0
  rw [raidRaiderCount]
  by_cases h0 : mfloor (d * max 0 (min 100 pr) / 100) ≤ 0
  · rw [if_pos h0, if_neg (by linarith : ¬ d < 1)]
    exact ⟨le_refl 1, hd1⟩
  · rw [if_neg h0]
    have h1 : 1 ≤ mfloor (d * max 0 (min 100 pr) / 100) := by
      rw [mfloor] at h0 ⊢
      have : 0 < ⌊d * max 0 (min 100 pr) / 100⌋ := by
        by_contra hcon
        push_neg at hcon
        exact h0 (by exact_mod_cast hcon)
      exact_mod_cast this
    by_cases h2 : d < mfloor (d * max 0 (min 100 pr) / 100)
    · rw [if_pos h2]
      exact ⟨hd1, le_refl d⟩
    · rw [if_neg h2]
      exact ⟨h1, not_lt.mp h2⟩

/-! ## Claim C4 -/

/-- Claim C4 (confirmed): for every accepted raid the accounting
    identities hold — the survivors (the clamped `rc - losses`) plus the
    attacker losses equal the committed raiders, the clamped new target
    defender count plus the defender losses equals the original count,
    the committed count `raidRaiderCount` (the clamped floor formula of
    the source) is at least 1 and at most the source's defenders, the
    result settlements carry exactly those values, and no resource ledger
    entry of any player becomes negative. -/
theorem raid_accounting_spec (freshId : String) (state : GameState)
    (action : PlayerAction) (fromId targetId : String) (pr : ℚ)
    (fromS target : Settlement)
    (htype : action.type = .RAID_SETTLEMENT)
    (hpay : action.payload = .raidSettlement fromId targetId pr)
    (hfrom : findSettlementById state fromId = some fromS)
    (htarget : findSettlementById state targetId = some target)
    (hown : fromS.owner = action.playerId)
    (hdiff : fromS.owner ≠ target.owner)
    (hdef : 0 < fromS.defenders)
    (hdint : ∃ n : ℕ, fromS.defenders = (n : ℚ))
    (hnn : ∀ p ∈ state.players, ∀ res, 0 ≤ p.resources.get res) :
    max 0 (raidRaiderCount fromS.defenders pr -
        (if raidRaiderCount fromS.defenders pr ≤ target.defenders then
          raidRaiderCount fromS.defenders pr else target.defenders)) +
      (if raidRaiderCount fromS.defenders pr ≤ target.defenders then
        raidRaiderCount fromS.defenders pr else target.defenders) =
      raidRaiderCount fromS.defenders pr ∧
    max 0 (target.defenders -
        (if raidRaiderCount fromS.defenders pr ≤ target.defenders then
          raidRaiderCount fromS.defenders pr else target.defenders)) +
      (if raidRaiderCount fromS.defenders pr ≤ target.defenders then
        raidRaiderCount fromS.defenders pr else target.defenders) =
      target.defenders ∧
    1 ≤ raidRaiderCount fromS.defenders pr ∧
    raidRaiderCount fromS.defenders pr ≤ fromS.defenders ∧
    findSettlementById (reduceGameState freshId state action) fromId =
      some { fromS with
        defenders := fromS.defenders -
          (if raidRaiderCount fromS.defenders pr ≤ target.defenders then
            raidRaiderCount fromS.defenders pr else target.defenders) } ∧
    (∀ p' ∈ (reduceGameState freshId state action).players,
      ∀ res, 0 ≤ p'.resources.get res) := by
  obtain ⟨n, hn⟩ := hdint
  obtain ⟨hrc1, hrcd⟩ := raidRaiderCount_bounds fromS.defenders pr n hn hdef
  have hlossle : (if raidRaiderCount fromS.defenders pr ≤ target.defenders
      then raidRaiderCount fromS.defenders pr else target.defenders) ≤
      raidRaiderCount fromS.defenders pr := by
    split
    · exact le_refl _
    · linarith [not_le.mp (by assumption :
        ¬ raidRaiderCount fromS.defenders pr ≤ target.defenders)]
  have hlossled : (if raidRaiderCount fromS.defenders pr ≤ target.defenders
      then raidRaiderCount fromS.defenders pr else target.defenders) ≤
      target.defenders := by
    split
    · assumption
    · exact le_refl _
  refine ⟨?_, ?_, hrc1, hrcd, ?_, ?_⟩
  · rw [max_eq_right (by linarith)]
    ring
  · rw [max_eq_right (by linarith)]
    ring
  · rw [reduceRaid_closed_form freshId state action fromId targetId pr fromS
      target htype hpay hfrom htarget hown hdiff hdef]
    dsimp only
    rw [findSettlementById]
    dsimp only
    rw [find?_id_map_settlements _ _
      (raidSettlementUpdate_id fromS.id target.id _ _ _)]
    rw [show (state.settlements.find? fun s => decide (s.id = fromId)) =
      findSettlementById state fromId from rfl, hfrom]
    rw [Option.map_some']
    rw [raidSettlementUpdate, if_pos rfl]
    congr 1
    split
    · rename_i hc
      simp
    · rename_i hc
      rw [max_eq_right (by linarith [not_le.mp hc])]
      ring
  · rw [reduceRaid_closed_form freshId state action fromId targetId pr fromS
      target htype hpay hfrom htarget hown hdiff hdef]
    dsimp only
    intro p' hp' res
    split at hp'
    · exact hnn p' hp' res
    · revert hp'
      cases hap' : getPlayer state fromS.owner with
      | none =>
          cases hdp' : getPlayer state target.owner with
          | none => exact fun hp' => hnn p' hp' res
          | some dp => exact fun hp' => hnn p' hp' res
      | some ap =>
          cases hdp' : getPlayer state target.owner with
          | none => exact fun hp' => hnn p' hp' res
          | some dp =>
              intro hp'
              obtain ⟨p, hpmem, hpeq⟩ := List.mem_map.mp hp'
              subst hpeq
              have hdpnn : ∀ r, 0 ≤ dp.resources.get r :=
                hnn dp (getPlayer_mem state target.owner dp hdp')
              have hpnn : ∀ r, 0 ≤ p.resources.get r := hnn p hpmem
              rw [raidLootUpdate]
              dsimp only
              split
              · rw [addResources_get, raidLoot_get]
                have := mfloor_loot_nonneg (dp.resources.get res) (hdpnn res)
                linarith [hpnn res]
              · split
                · rw [subtractResources_loot_get]
                  exact le_max_left 0 _
                · exact hpnn res

/-- Witness for C4 at the concrete 12-defender / 50% / 4-defender raid. -/
theorem raid_accounting_spec_witness :
    1 ≤ raidRaiderCount raidSettA.defenders 50 ∧
    raidRaiderCount raidSettA.defenders 50 ≤ raidSettA.defenders ∧
    (∀ p' ∈ (reduceGameState "x" raidState raidAction).players,
      ∀ res, 0 ≤ p'.resources.get res) := by
  have h := raid_accounting_spec "x" raidState raidAction "sA" "sB" 50
    raidSettA raidSettB rfl rfl rfl rfl rfl (by decide)
    (by norm_num [raidSettA]) ⟨12, by norm_num [raidSettA]⟩
    (by
      intro p hp res
      rw [raidState] at hp
      simp only [List.mem_cons, List.not_mem_nil, or_false] at hp
      rcases hp with h | h <;>
        · subst h
          cases res <;>
            norm_num [raidPlayerA, raidPlayerB, Resources.get])
  exact ⟨h.2.2.1, h.2.2.2.1, h.2.2.2.2.2⟩

/-! ## Claim C2: territory controller characterization -/

/-- A settlement (with its coordinate) has a tile's coordinate inside its
    influence radius: the loop keeps exactly the candidates with
    `dist ≤ radius` (it skips `radius < dist`). -/
def InfluenceRange (c : HexCoord) (sc : Settlement × HexCoord) : Prop :=
  hexDistance c sc.2 ≤ getSettlementInfluenceRadius sc.1

instance (c : HexCoord) (sc : Settlement × HexCoord) :
    Decidable (InfluenceRange c sc) := by
  rw [InfluenceRange]
  infer_instance

/-- Characterization of the per-tile fold: either nothing was in range
    and the accumulator is untouched, or `bestDist` is the minimal
    in-range distance `m`, `bestOwner` is the owner of some in-range
    settlement at distance `m`, and `contested` is set exactly when some
    in-range settlement at distance `m` has a different owner. -/
lemma tcFold_characterization (c : HexCoord)
    (l : List (Settlement × HexCoord)) :
    ((∀ sc ∈ l, ¬ InfluenceRange c sc) ∧
      l.foldl (tcUpdate c) ⟨none, none, false⟩ = ⟨none, none, false⟩) ∨
    (∃ m o ct,
      l.foldl (tcUpdate c) ⟨none, none, false⟩ = ⟨some o, some m, ct⟩ ∧
      (∃ sc ∈ l, InfluenceRange c sc ∧ hexDistance c sc.2 = m ∧
        sc.1.owner = o) ∧
      (∀ sc ∈ l, InfluenceRange c sc → m ≤ hexDistance c sc.2) ∧
      (ct = true ↔ ∃ sc ∈ l, InfluenceRange c sc ∧
        hexDistance c sc.2 = m ∧ sc.1.owner ≠ o)) := by
  induction l using List.reverseRecOn with
  | nil => exact Or.inl ⟨by simp, rfl⟩
  | append_singleton l x ih =>
    rw [List.foldl_append, List.foldl_cons, List.foldl_nil]
    by_cases hx : InfluenceRange c x
    · have hxcond : ¬ getSettlementInfluenceRadius x.1 < hexDistance c x.2 :=
        not_lt.mpr hx
      rcases ih with ⟨hnone, hacc⟩ | ⟨m, o, ct, hacc, hex, hmin, hct⟩
      · rw [hacc]
        refine Or.inr ⟨hexDistance c x.2, x.1.owner, false, ?_, ?_, ?_, ?_⟩
        · simp only [tcUpdate]
          rw [if_neg hxcond]
        · exact ⟨x, by simp, hx, rfl, rfl⟩
        · intro sc hsc hscr
          rcases List.mem_append.mp hsc with h | h
          · exact absurd hscr (hnone sc h)
          · rw [List.mem_singleton.mp h]
        · constructor
          · intro hfalse
            cases hfalse
          · rintro ⟨sc, hsc, hscr, _, hscowner⟩
            rcases List.mem_append.mp hsc with h | h
            · exact absurd hscr (hnone sc h)
            · exact (hscowner (by rw [List.mem_singleton.mp h])).elim
      · rw [hacc]
        by_cases hlt : hexDistance c x.2 < m
        · refine Or.inr ⟨hexDistance c x.2, x.1.owner, false, ?_, ?_, ?_, ?_⟩
          · simp only [tcUpdate]
            rw [if_neg hxcond]
            rw [if_pos hlt]
          · exact ⟨x, by simp, hx, rfl, rfl⟩
          · intro sc hsc hscr
            rcases List.mem_append.mp hsc with h | h
            · linarith [hmin sc h hscr]
            · rw [List.mem_singleton.mp h]
          · constructor
            · intro hfalse
              cases hfalse
            · rintro ⟨sc, hsc, hscr, hscd, hscowner⟩
              rcases List.mem_append.mp hsc with h | h
              · linarith [hmin sc h hscr]
              · exact (hscowner (by rw [List.mem_singleton.mp h])).elim
        · by_cases heq : hexDistance c x.2 = m ∧ x.1.owner ≠ o
          · refine Or.inr ⟨m, o, true, ?_, ?_, ?_, ?_⟩
            · simp only [tcUpdate]
              rw [if_neg hxcond]
              rw [if_neg hlt, if_pos (by
                refine ⟨heq.1, ?_⟩
                simpa using heq.2)]
            · obtain ⟨sc, hsc, h1, h2, h3⟩ := hex
              exact ⟨sc, List.mem_append_left _ hsc, h1, h2, h3⟩
            · intro sc hsc hscr
              rcases List.mem_append.mp hsc with h | h
              · exact hmin sc h hscr
              · rw [List.mem_singleton.mp h, heq.1]
            · constructor
              · intro _
                exact ⟨x, by simp, hx, heq.1, heq.2⟩
              · intro _
                rfl
          · refine Or.inr ⟨m, o, ct, ?_, ?_, ?_, ?_⟩
            · simp only [tcUpdate]
              rw [if_neg hxcond]
              rw [if_neg hlt, if_neg (by
                intro hcon
                exact heq ⟨hcon.1, by simpa using hcon.2⟩)]
            · obtain ⟨sc, hsc, h1, h2, h3⟩ := hex
              exact ⟨sc, List.mem_append_left _ hsc, h1, h2, h3⟩
            · intro sc hsc hscr
              rcases List.mem_append.mp hsc with h | h
              · exact hmin sc h hscr
              · rw [List.mem_singleton.mp h]
                exact not_lt.mp hlt
            · rw [hct]
              constructor
              · rintro ⟨sc, hsc, h1, h2, h3⟩
                exact ⟨sc, List.mem_append_left _ hsc, h1, h2, h3⟩
              · rintro ⟨sc, hsc, h1, h2, h3⟩
                rcases List.mem_append.mp hsc with h | h
                · exact ⟨sc, h, h1, h2, h3⟩
                · exfalso
                  rw [List.mem_singleton.mp h] at h2 h3
                  exact heq ⟨h2, h3⟩
    · have hxcond : getSettlementInfluenceRadius x.1 < hexDistance c x.2 :=
        not_le.mp (by
          intro hcon
          exact hx hcon)
      have hupd : tcUpdate c (l.foldl (tcUpdate c) ⟨none, none, false⟩) x =
          l.foldl (tcUpdate c) ⟨none, none, false⟩ := by
        rw [tcUpdate]
        rw [if_pos hxcond]
      rw [hupd]
      rcases ih with ⟨hnone, hacc⟩ | ⟨m, o, ct, hacc, hex, hmin, hct⟩
      · refine Or.inl ⟨?_, hacc⟩
        intro sc hsc
        rcases List.mem_append.mp hsc with h | h
        · exact hnone sc h
        · rw [List.mem_singleton.mp h]
          exact hx
      · refine Or.inr ⟨m, o, ct, hacc, ?_, ?_, ?_⟩
        · obtain ⟨sc, hsc, h1, h2, h3⟩ := hex
          exact ⟨sc, List.mem_append_left _ hsc, h1, h2, h3⟩
        · intro sc hsc hscr
          rcases List.mem_append.mp hsc with h | h
          · exact hmin sc h hscr
          · rw [List.mem_singleton.mp h] at hscr
            exact absurd hscr hx
        · rw [hct]
          constructor
          · rintro ⟨sc, hsc, h1, h2, h3⟩
            exact ⟨sc, List.mem_append_left _ hsc, h1, h2, h3⟩
          · rintro ⟨sc, hsc, h1, h2, h3⟩
            rcases List.mem_append.mp hsc with h | h
            · exact ⟨sc, h, h1, h2, h3⟩
            · rw [List.mem_singleton.mp h] at h1
              exact absurd h1 hx

/-- Claim C2 (confirmed): after territory recomputation every tile's new
    controller is the owner of a nearest in-range settlement (unique
    owner among the minimal-distance in-range candidates), `none` when no
    settlement has the tile in range, and `none` when two minimal-distance
    in-range candidates are owned by different players.  Candidates are
    the settlements whose tile lookup succeeds, paired with their
    coordinates. -/
theorem territory_controller_spec (state : GameState) (tile : Tile)
    (h : tile ∈ state.tiles) :
    ∃ c, { tile with controller := c } ∈ (assignTileControllers state).tiles ∧
      (c = none ↔
        (∀ sc ∈ settlementsWithCoords state,
          ¬ InfluenceRange tile.coord sc) ∨
        ∃ sc ∈ settlementsWithCoords state,
          ∃ sc' ∈ settlementsWithCoords state,
            InfluenceRange tile.coord sc ∧ InfluenceRange tile.coord sc' ∧
            hexDistance tile.coord sc.2 = hexDistance tile.coord sc'.2 ∧
            sc.1.owner ≠ sc'.1.owner ∧
            (∀ sc'' ∈ settlementsWithCoords state,
              InfluenceRange tile.coord sc'' →
                hexDistance tile.coord sc.2 ≤
                  hexDistance tile.coord sc''.2)) ∧
      (∀ o, c = some o → ∃ sc ∈ settlementsWithCoords state,
        InfluenceRange tile.coord sc ∧ sc.1.owner = o ∧
        ∀ sc' ∈ settlementsWithCoords state,
          InfluenceRange tile.coord sc' →
            hexDistance tile.coord sc.2 ≤ hexDistance tile.coord sc'.2 ∧
            (hexDistance tile.coord sc'.2 = hexDistance tile.coord sc.2 →
              sc'.1.owner = o)) := by
  refine ⟨controllerForTile (settlementsWithCoords state) tile, ?_, ?_⟩
  · rw [assignTileControllers]
    exact List.mem_map.mpr ⟨tile, h, rfl⟩
  · rw [controllerForTile]
    by_cases hempty : (settlementsWithCoords state).isEmpty
    · rw [if_pos hempty]
      constructor
      · simp only [eq_self_iff_true, true_iff]
        left
        intro sc hsc
        rw [List.isEmpty_iff.mp hempty] at hsc
        cases hsc
      · intro o ho
        cases ho
    · rw [if_neg hempty]
      rcases tcFold_characterization tile.coord (settlementsWithCoords state)
        with ⟨hnone, hacc⟩ | ⟨m, o, ct, hacc, hex, hmin, hct⟩
      · rw [hacc]
        dsimp only
        simp only [Bool.false_eq_true, if_false]
        constructor
        · simp only [eq_self_iff_true, true_iff]
          exact Or.inl hnone
        · intro o ho
          cases ho
      · rw [hacc]
        dsimp only
        cases ct with
        | true =>
            simp only [if_true]
            constructor
            · simp only [eq_self_iff_true, true_iff]
              right
              obtain ⟨sc0, hsc0, hr0, hd0, ho0⟩ := hex
              obtain ⟨sc1, hsc1, hr1, hd1, ho1⟩ := hct.mp rfl
              refine ⟨sc0, hsc0, sc1, hsc1, hr0, hr1, by rw [hd0, hd1], ?_, ?_⟩
              · rw [ho0]
                exact fun hcon => ho1 hcon.symm
              · intro sc'' hsc'' hr''
                rw [hd0]
                exact hmin sc'' hsc'' hr''
            · intro o' ho'
              cases ho'
        | false =>
            simp only [Bool.false_eq_true, if_false]
            constructor
            · constructor
              · intro hsome
                exact (Option.some_ne_none o hsome).elim
              · intro hR
                exfalso
                rcases hR with hcon | ⟨sc, hsc, sc', hsc', hr, hr', hdeq,
                  hone, hminsc⟩
                · obtain ⟨sc0, hsc0, hr0, _, _⟩ := hex
                  exact absurd hr0 (hcon sc0 hsc0)
                obtain ⟨sc0, hsc0, hr0, hd0, ho0⟩ := hex
                have h1 : hexDistance tile.coord sc.2 = m :=
                  le_antisymm (by
                    have := hminsc sc0 hsc0 hr0
                    rw [hd0] at this
                    exact this) (hmin sc hsc hr)
                have h2 : hexDistance tile.coord sc'.2 = m := by
                  rw [← hdeq]
                  exact h1
                have hsc_o : sc.1.owner = o := by
                  by_contra hcon2
                  have := hct.mpr ⟨sc, hsc, hr, h1, hcon2⟩
                  cases this
                have hsc'_o : sc'.1.owner = o := by
                  by_contra hcon2
                  have := hct.mpr ⟨sc', hsc', hr', h2, hcon2⟩
                  cases this
                rw [hsc_o, hsc'_o] at hone
                exact hone rfl
            · intro o' ho'
              obtain ⟨sc0, hsc0, hr0, hd0, hoo⟩ := hex
              cases ho'
              refine ⟨sc0, hsc0, hr0, hoo, ?_⟩
              intro sc' hsc' hr'
              refine ⟨by rw [hd0]; exact hmin sc' hsc' hr', ?_⟩
              intro hdeq
              by_contra hcon
              have := hct.mpr ⟨sc', hsc', hr', by rw [hdeq, hd0], hcon⟩
              cases this

def terrTile : Tile :=
  { id := "t0", coord := { q := 0, r := 0 }, terrain := .Field,
    settlementId := some "s1", controller := none }

def terrState : GameState :=
  { id := "g", tiles := [terrTile],
    settlements := [{ id := "s1", owner := "P1", tileId := "t0", level := 1,
                      population := 10, workers := 6, worshippers := 2,
                      defenders := 2, populationCap := 20,
                      growthProgress := 0 }],
    players := [], phase := .RUNNING, currentTimeMs := 0, winnerId := none,
    buffs := [] }

/-- Witness for C2 at a concrete one-settlement snapshot. -/
theorem territory_controller_spec_witness :
    ∃ c, { terrTile with controller := c } ∈
        (assignTileControllers terrState).tiles ∧
      (c = none ↔
        (∀ sc ∈ settlementsWithCoords terrState,
          ¬ InfluenceRange terrTile.coord sc) ∨
        ∃ sc ∈ settlementsWithCoords terrState,
          ∃ sc' ∈ settlementsWithCoords terrState,
            InfluenceRange terrTile.coord sc ∧
            InfluenceRange terrTile.coord sc' ∧
            hexDistance terrTile.coord sc.2 =
              hexDistance terrTile.coord sc'.2 ∧
            sc.1.owner ≠ sc'.1.owner ∧
            (∀ sc'' ∈ settlementsWithCoords terrState,
              InfluenceRange terrTile.coord sc'' →
                hexDistance terrTile.coord sc.2 ≤
                  hexDistance terrTile.coord sc''.2)) ∧
      (∀ o, c = some o → ∃ sc ∈ settlementsWithCoords terrState,
        InfluenceRange terrTile.coord sc ∧ sc.1.owner = o ∧
        ∀ sc' ∈ settlementsWithCoords terrState,
          InfluenceRange terrTile.coord sc' →
            hexDistance terrTile.coord sc.2 ≤
              hexDistance terrTile.coord sc'.2 ∧
            (hexDistance terrTile.coord sc'.2 =
              hexDistance terrTile.coord sc.2 →
              sc'.1.owner = o)) :=
  territory_controller_spec terrState terrTile (by
    rw [terrState]
    simp)

/-! ## Claim C6: the LOBBY to RUNNING transition -/

def c6Player (i : String) : Player :=
  { id := i, name := i,
    resources := { food := 0, wood := 0, stone := 0, gold := 0, belief := 0 },
    victoryPoints := 0, belief := 0, maxBeliefEver := 0,
    policy := none, isNpc := false }

def c6TileA : Tile :=
  { id := "t0", coord := { q := 0, r := 0 }, terrain := .Field,
    settlementId := none, controller := none }

def c6TileB : Tile :=
  { id := "t1", coord := { q := 3, r := 0 }, terrain := .Field,
    settlementId := none, controller := none }

/-- LOBBY snapshot with two human players, zero NPCs, two empty tiles. -/
def c6State : GameState :=
  { id := "g", tiles := [c6TileA, c6TileB], settlements := [],
    players := [c6Player "PLAYER_1", c6Player "PLAYER_2"],
    phase := .LOBBY, currentTimeMs := 0, winnerId := none, buffs := [] }

def c6place (pid tid : String) : PlayerAction :=
  { id := "a", playerId := pid, type := .PLACE_STARTING_SETTLEMENT,
    payload := .placeStartingSettlement tid, clientTimeMs := 0 }

/-- Claim C6 as stated is false: with two human players and zero NPCs the
    phase flips to RUNNING already after the FIRST placement (the reducer
    requires only `some` human to be ready, not every one), while the
    second human still has no settlement. -/
theorem phase_transition_claim_counterexample :
    (reduceGameState "id_0" c6State (c6place "PLAYER_1" "t0")).phase =
      GamePhase.RUNNING ∧
    playerHasSettlement (reduceGameState "id_0" c6State
      (c6place "PLAYER_1" "t0")) "PLAYER_2" = false := by
  norm_num +decide [reduceGameState, reducePlaceStartingSettlement,
    getPlayer, countSettlementsForPlayer, findTileById, playerHasSettlement,
    c6State, c6place, c6Player, c6TileA, c6TileB, List.find?, List.filter,
    List.any, truthyOptStr]

/-- Claim C6, amended: after every accepted PLACE_STARTING_SETTLEMENT the
    phase is RUNNING exactly when it already was, or at least one human
    player and every NPC player have placed a starting settlement (the
    placing player counting as placed); the two-human scenario still ends
    with phase RUNNING, one victory point each and two population-10
    settlements split 6/2/2 — but the phase already flips after the first
    placement. -/
theorem phase_transition_amended
    (freshId : String) (state : GameState) (aid pid tid : String) (ct : ℚ)
    (player : Player) (tile : Tile)
    (hplayer : getPlayer state pid = some player)
    (hnone : countSettlementsForPlayer state player.id = 0)
    (htile : findTileById state tid = some tile)
    (hwater : tile.terrain ≠ .Water)
    (hocc : tile.settlementId = none) :
    ((reduceGameState freshId state
        { id := aid, playerId := pid, type := .PLACE_STARTING_SETTLEMENT,
          payload := .placeStartingSettlement tid,
          clientTimeMs := ct }).phase = GamePhase.RUNNING ↔
      (state.phase = GamePhase.RUNNING ∨
        ((∃ p ∈ state.players, p.isNpc = false ∧
            (playerHasSettlement state p.id = true ∨ player.id = p.id)) ∧
          (∀ p ∈ state.players, p.isNpc = true →
            (playerHasSettlement state p.id = true ∨ player.id = p.id))))) ∧
    ((reduceGameState "id_1"
        (reduceGameState "id_0" c6State (c6place "PLAYER_1" "t0"))
        (c6place "PLAYER_2" "t1")).phase = GamePhase.RUNNING ∧
      (reduceGameState "id_1"
        (reduceGameState "id_0" c6State (c6place "PLAYER_1" "t0"))
        (c6place "PLAYER_2" "t1")).players.map (fun p => p.victoryPoints) =
        [1, 1] ∧
      (reduceGameState "id_1"
        (reduceGameState "id_0" c6State (c6place "PLAYER_1" "t0"))
        (c6place "PLAYER_2" "t1")).settlements.map
          (fun s => (s.population, s.workers, s.worshippers, s.defenders)) =
        [(10, 6, 2, 2), (10, 6, 2, 2)]) := by
  constructor
  · rw [reduceGameState]
    simp only [reducePlaceStartingSettlement, hplayer, htile, hnone]
    rw [if_neg (by omega)]
    rw [if_neg (by simp [hwater, hocc, truthyOptStr])]
    dsimp only
    rw [show ∀ (a : GameState) (t : ℚ),
      ({ a with currentTimeMs := t } : GameState).phase =
        a.phase from fun a t => rfl]
    simp only [playerHasSettlement, List.filter_map, List.any_map,
      List.all_map, List.length_map, Function.comp_def, vpBump_id,
      vpBump_isNpc, List.any_append, List.any_cons, List.any_nil,
      Bool.or_false]
    split
    · rename_i hcond
      refine iff_of_true rfl (Or.inr ?_)
      simp only [Bool.and_eq_true, Bool.or_eq_true, decide_eq_true_eq]
        at hcond
      obtain ⟨⟨hA, hB⟩, hph⟩ := hcond
      constructor
      · rw [List.any_eq_true] at hA
        obtain ⟨p, hpmem, hppred⟩ := hA
        rw [List.mem_filter] at hpmem
        refine ⟨p, hpmem.1, by simpa using hpmem.2, ?_⟩
        simpa using hppred
      · intro p hpmem hpnpc
        rcases hB with hlen | hall
        · exfalso
          rw [List.length_eq_zero] at hlen
          have hin : p ∈ state.players.filter (fun p => p.isNpc) :=
            List.mem_filter.mpr ⟨hpmem, hpnpc⟩
          rw [hlen] at hin
          cases hin
        · rw [List.all_eq_true] at hall
          have := hall p (List.mem_filter.mpr ⟨hpmem, hpnpc⟩)
          simpa using this
    · rename_i hcond
      constructor
      · exact fun hrun => Or.inl hrun
      · rintro (hrun | ⟨⟨p0, hp0mem, hp0npc, hp0ready⟩, hnpc⟩)
        · exact hrun
        · by_contra hnr
          refine hcond ?_
          simp only [Bool.and_eq_true, Bool.or_eq_true, decide_eq_true_eq]
          refine ⟨⟨?_, ?_⟩, hnr⟩
          · rw [List.any_eq_true]
            refine ⟨p0, List.mem_filter.mpr
              ⟨hp0mem, by simpa using hp0npc⟩, ?_⟩
            simpa using hp0ready
          · right
            rw [List.all_eq_true]
            intro p hp
            rw [List.mem_filter] at hp
            have := hnpc p hp.1 hp.2
            simpa using this
  · refine ⟨?_, ?_, ?_⟩ <;>
      norm_num +decide [reduceGameState, reducePlaceStartingSettlement,
        getPlayer, countSettlementsForPlayer, findTileById,
        playerHasSettlement, vpBump, c6State, c6place, c6Player, c6TileA,
        c6TileB, List.find?, List.filter, List.any, truthyOptStr]

/-- Witness for the amended C6: the concrete two-human scenario reaches
    RUNNING after both placements. -/
theorem phase_transition_amended_witness :
    (reduceGameState "id_1"
        (reduceGameState "id_0" c6State (c6place "PLAYER_1" "t0"))
        (c6place "PLAYER_2" "t1")).phase = GamePhase.RUNNING :=
  (phase_transition_amended "id_0" c6State "a" "PLAYER_1" "t0" 0
    (c6Player "PLAYER_1") c6TileA rfl rfl rfl (by decide) rfl).2.1

/-! ## Claim C7: TICK with delta 0 -/

def c7Tile : Tile :=
  { id := "t0", coord := { q := 0, r := 0 }, terrain := .Field,
    settlementId := some "s1", controller := none }

def c7Sett : Settlement :=
  { id := "s1", owner := "P1", tileId := "t0", level := 1,
    population := 1, workers := 1, worshippers := 0, defenders := 0,
    populationCap := 20, growthProgress := 0 }

def c7PlayerA : Player :=
  { id := "P1", name := "P1",
    resources := { food := 0, wood := 0, stone := 0, gold := 0, belief := 0 },
    victoryPoints := 0, belief := 0, maxBeliefEver := 0,
    policy := none, isNpc := false }

/-- RUNNING snapshot with one worker on a Field tile and an empty
    ledger. -/
def c7State : GameState :=
  { id := "g", tiles := [c7Tile], settlements := [c7Sett],
    players := [c7PlayerA], phase := .RUNNING, currentTimeMs := 0,
    winnerId := none, buffs := [] }

/-- RUNNING snapshot whose settlement already carries a full growth
    accumulator (`growthProgress = 10`, reachable after an upgrade raised
    the cap). -/
def c7StateG : GameState :=
  { id := "g", tiles := [c7Tile],
    settlements := [{ id := "s1", owner := "P1", tileId := "t0",
                      level := 1, population := 5, workers := 0,
                      worshippers := 0, defenders := 0,
                      populationCap := 20, growthProgress := 10 }],
    players := [c7PlayerA], phase := .RUNNING, currentTimeMs := 0,
    winnerId := none, buffs := [] }

def tick0 : PlayerAction :=
  { id := "a", playerId := "P1", type := .TICK, payload := .tick 0,
    clientTimeMs := 0 }

set_option maxHeartbeats 1600000 in
/-- Claim C7 as stated is false on a RUNNING snapshot: a TICK with
    delta 0 leaves the clock unchanged but still applies one full
    (un-scaled) income step — the lone worker's Food income 51/25 lands
    in the ledger — and a pending growth accumulator still raises a
    settlement's population (5 → 6). -/
theorem tick_zero_claim_counterexample :
    (reduceGameState "f" c7State tick0).currentTimeMs =
      c7State.currentTimeMs ∧
    (reduceGameState "f" c7State tick0).players.map
      (fun p => p.resources.food) = [51/25] ∧
    c7State.players.map (fun p => p.resources.food) = [0] ∧
    (reduceGameState "f" c7StateG tick0).settlements.map
      (fun s => s.population) = [6] ∧
    c7StateG.settlements.map (fun s => s.population) = [5] := by
  refine ⟨?_, ?_, ?_, ?_, ?_⟩ <;>
    norm_num +decide [reduceGameState, reduceTick, assignTileControllers,
      settlementsWithCoords, controllerForTile, tcUpdate, hexDistance,
      getSettlementInfluenceRadius, countControlledTilesFor, buffMultipliers,
      settlementIncome, tickIncomeFor, addResources, emptyResourceRecord,
      applyIncomeToPlayer, popByPlayer, isStarving, upkeepPlayer,
      subtractResources, growthLoop, growthLoopAux, growSettlement,
      autoAllocateSettlement, getPlayer, findTileById, resourceKeys,
      UPKEEP_PER_PERSON_PER_SECOND, GROWTH_RATE_PER_SECOND, GROWTH_THRESHOLD,
      Resources.get, Resources.set, c7State, c7StateG, c7Tile, c7Sett,
      c7PlayerA, tick0, List.find?, List.filter, List.any,
      List.filterMap_cons, List.filterMap_nil, List.foldl_cons,
      List.foldl_nil, Option.map_some, List.map_cons, List.map_nil,
      List.all_cons, List.all_nil, List.isEmpty, mfloor]

lemma growthLoop_of_lt (s : Settlement)
    (h : s.growthProgress < GROWTH_THRESHOLD) : growthLoop s = s := by
  rw [growthLoop]
  cases hn : Int.toNat ⌈s.populationCap - s.population⌉ with
  | zero => rfl
  | succ n =>
      rw [growthLoopAux]
      rw [if_neg]
      rintro ⟨h1, _⟩
      linarith

lemma growSettlement_population_zero (starving : String → Bool)
    (s : Settlement) (h : s.growthProgress < GROWTH_THRESHOLD) :
    (growSettlement starving 0 s).population = s.population := by
  rw [growSettlement]
  split
  · rfl
  · split
    · rfl
    · rw [growthLoop_of_lt _ (by simpa using h)]

lemma autoAllocate_population (state : GameState) (s : Settlement) :
    (autoAllocateSettlement state s).population = s.population := by
  rw [autoAllocateSettlement]
  cases h1 : getPlayer state s.owner with
  | none => rfl
  | some player =>
      dsimp only
      cases h2 : player.policy with
      | none => rfl
      | some policy =>
          dsimp only
          split
          · rfl
          · split <;> rfl

/-- Claim C7, amended: a TICK with delta 0 never changes the clock,
    prunes exactly the buffs with `expiresAtMs` at or before the clock
    and recomputes territory controllers; when the phase is not RUNNING
    nothing else changes, but in RUNNING the reducer still applies one
    full (un-scaled) income and auto-reallocation step, so ledgers and
    role counts can change; populations are preserved whenever every
    settlement's growth accumulator is below the growth threshold. -/
theorem tick_zero_amended (freshId : String) (state : GameState)
    (aid pid : String) (t : ℚ) :
    (reduceGameState freshId state
        { id := aid, playerId := pid, type := .TICK, payload := .tick 0,
          clientTimeMs := t }).currentTimeMs = state.currentTimeMs ∧
    (reduceGameState freshId state
        { id := aid, playerId := pid, type := .TICK, payload := .tick 0,
          clientTimeMs := t }).buffs =
      state.buffs.filter (fun b => state.currentTimeMs < b.expiresAtMs) ∧
    (state.phase ≠ .RUNNING →
      (reduceGameState freshId state
        { id := aid, playerId := pid, type := .TICK, payload := .tick 0,
          clientTimeMs := t }).players = state.players ∧
      (reduceGameState freshId state
        { id := aid, playerId := pid, type := .TICK, payload := .tick 0,
          clientTimeMs := t }).settlements = state.settlements) ∧
    ((∀ s ∈ state.settlements, s.growthProgress < GROWTH_THRESHOLD) →
      (reduceGameState freshId state
        { id := aid, playerId := pid, type := .TICK, payload := .tick 0,
          clientTimeMs := t }).settlements.map (fun s => s.population) =
        state.settlements.map (fun s => s.population)) := by
  rw [reduceGameState]
  simp only [reduceTick]
  rw [show state.currentTimeMs + 0 = state.currentTimeMs from add_zero _]
  have hfilter : (fun (b : SettlementBuff) =>
      decide (state.currentTimeMs < b.expiresAtMs)) =
      fun b => decide (state.currentTimeMs < b.expiresAtMs) := rfl
  split
  · exact ⟨rfl, rfl, fun _ => ⟨rfl, rfl⟩, fun _ => rfl⟩
  · rename_i hrun
    refine ⟨rfl, rfl, fun hcon => absurd hcon (by simpa using hrun), ?_⟩
    intro hgrow
    show (List.map _ (List.map (growSettlement _ (0 / 1000)) _)).map _ = _
    rw [List.map_map, List.map_map]
    rw [show (0 : ℚ) / 1000 = 0 by norm_num]
    apply List.map_congr_left
    intro s hs
    show (autoAllocateSettlement _ (growSettlement _ 0 s)).population =
      s.population
    rw [autoAllocate_population, growSettlement_population_zero]
    exact hgrow s hs

def c7LobbyState : GameState :=
  { id := "g", tiles := [c7Tile], settlements := [c7Sett],
    players := [c7PlayerA], phase := .LOBBY, currentTimeMs := 0,
    winnerId := none, buffs := [] }

/-- Witness for the amended C7 on a concrete LOBBY snapshot. -/
theorem tick_zero_amended_witness :
    (reduceGameState "f" c7LobbyState
        { id := "a", playerId := "P1", type := .TICK, payload := .tick 0,
          clientTimeMs := 0 }).players = c7LobbyState.players ∧
    (reduceGameState "f" c7LobbyState
        { id := "a", playerId := "P1", type := .TICK, payload := .tick 0,
          clientTimeMs := 0 }).currentTimeMs = c7LobbyState.currentTimeMs :=
  ⟨((tick_zero_amended "f" c7LobbyState "a" "P1" 0).2.2.1 (by decide)).1,
    (tick_zero_amended "f" c7LobbyState "a" "P1" 0).1⟩

/-! ## Claim C8: silent rejections -/

def c8State : GameState :=
  { id := "g", tiles := [], settlements := [],
    players := [c7PlayerA], phase := .RUNNING, currentTimeMs := 0,
    winnerId := none, buffs := [] }

/-- Claim C8 as stated is false in one corner: a SET_POLICY intent from a
    player id that does not exist (a missing referenced entity) leaves
    every player untouched but still advances the clock to the client
    timestamp, so the result is not equal to the input snapshot. -/
theorem silent_reject_claim_counterexample :
    (reduceGameState "f" c8State
        { id := "a", playerId := "GHOST", type := .SET_POLICY,
          payload := .setPolicy 10 10 10 .AGGRESSIVE,
          clientTimeMs := 5 }).currentTimeMs = 5 ∧
    c8State.currentTimeMs = 0 ∧
    reduceGameState "f" c8State
        { id := "a", playerId := "GHOST", type := .SET_POLICY,
          payload := .setPolicy 10 10 10 .AGGRESSIVE,
          clientTimeMs := 5 } ≠ c8State ∧
    (reduceGameState "f" c8State
        { id := "a", playerId := "GHOST", type := .SET_POLICY,
          payload := .setPolicy 10 10 10 .AGGRESSIVE,
          clientTimeMs := 5 }).players = c8State.players := by
  have hclock : (reduceGameState "f" c8State
      { id := "a", playerId := "GHOST", type := .SET_POLICY,
        payload := .setPolicy 10 10 10 .AGGRESSIVE,
        clientTimeMs := 5 }).currentTimeMs = 5 := by
    norm_num +decide [reduceGameState, reduceSetPolicy, c8State, c7PlayerA]
  refine ⟨hclock, rfl, ?_, ?_⟩
  · intro hcon
    rw [hcon] at hclock
    norm_num [c8State] at hclock
  · norm_num +decide [reduceGameState, reduceSetPolicy, c8State, c7PlayerA]

/-- The rejection conditions of the claim, per intent kind: an
    unrecognized kind, a missing required payload, a missing referenced
    entity, or a violated phase/ownership/affordability precondition.
    SET_POLICY appears only through the missing-payload case: it never
    checks the acting player's existence. -/
def RejectedNoOp (state : GameState) (action : PlayerAction) : Prop :=
  (∃ tag, action.type = .UNKNOWN tag) ∨
  (action.payload = .noPayload ∧
    (action.type = .PLACE_STARTING_SETTLEMENT ∨
      action.type = .BUILD_SETTLEMENT ∨ action.type = .ALLOCATE_ROLES ∨
      action.type = .USE_DEITY_POWER ∨ action.type = .UPGRADE_SETTLEMENT ∨
      action.type = .RAID_SETTLEMENT ∨ action.type = .SET_POLICY)) ∨
  (action.type = .PLACE_STARTING_SETTLEMENT ∧
    ∃ tid, action.payload = .placeStartingSettlement tid ∧
      (getPlayer state action.playerId = none ∨
        (∃ player, getPlayer state action.playerId = some player ∧
          (0 < countSettlementsForPlayer state player.id ∨
            findTileById state tid = none ∨
            (∃ tile, findTileById state tid = some tile ∧
              (tile.terrain = .Water ∨
                truthyOptStr tile.settlementId = true)))))) ∨
  (action.type = .BUILD_SETTLEMENT ∧
    ∃ tid, action.payload = .buildSettlement tid ∧
      (state.phase ≠ .RUNNING ∨ findTileById state tid = none ∨
        (∃ tile, findTileById state tid = some tile ∧
          (tile.terrain = .Water ∨ truthyOptStr tile.settlementId = true ∨
            getPlayer state action.playerId = none ∨
            (∃ player, getPlayer state action.playerId = some player ∧
              ((state.settlements.filter
                  (fun s => s.owner = player.id)).length = 0 ∨
                ¬ (state.settlements.filter
                    (fun s => s.owner = player.id)).any (fun s =>
                  match findTileById state s.tileId with
                  | none => false
                  | some sTile =>
                      hexDistance sTile.coord tile.coord ≤ 3) = true ∨
                player.resources.get .Food < 100 ∨
                player.resources.get .Wood < 100 ∨
                player.resources.get .Stone < 50)))))) ∨
  (action.type = .ALLOCATE_ROLES ∧
    ∃ sid wp wpp dp, action.payload = .allocateRoles sid wp wpp dp ∧
      (findSettlementById state sid = none ∨
        (∃ settlement, findSettlementById state sid = some settlement ∧
          settlement.owner ≠ action.playerId))) ∨
  (action.type = .USE_DEITY_POWER ∧
    ∃ power sid, action.payload = .useDeityPower power sid ∧
      (findSettlementById state sid = none ∨
        (∃ settlement, findSettlementById state sid = some settlement ∧
          (settlement.owner ≠ action.playerId ∨
            getPlayer state action.playerId = none ∨
            (∃ player, getPlayer state action.playerId = some player ∧
              player.resources.get .Belief < deityPowerCost power))))) ∨
  (action.type = .UPGRADE_SETTLEMENT ∧
    ∃ sid, action.payload = .upgradeSettlement sid ∧
      (findSettlementById state sid = none ∨
        (∃ settlement, findSettlementById state sid = some settlement ∧
          (settlement.owner ≠ action.playerId ∨
            getPlayer state action.playerId = none ∨
            (∃ player, getPlayer state action.playerId = some player ∧
              (player.resources.get .Wood < 50 ∨
                player.resources.get .Stone < 50)))))) ∨
  (action.type = .RAID_SETTLEMENT ∧
    ∃ fid tid pr, action.payload = .raidSettlement fid tid pr ∧
      (findSettlementById state fid = none ∨
        findSettlementById state tid = none ∨
        (∃ fromS target, findSettlementById state fid = some fromS ∧
          findSettlementById state tid = some target ∧
          (fromS.owner ≠ action.playerId ∨ fromS.owner = target.owner ∨
            fromS.defenders ≤ 0))))

/-- Claim C8, amended: the reducer is total and, for an unrecognized
    kind, a missing required payload, a missing referenced entity, or a
    violated phase/ownership/affordability precondition, returns the
    input snapshot itself — except that SET_POLICY never checks the
    acting player's existence: with a missing actor it leaves every
    player unchanged but still advances the clock. -/
theorem silent_reject_amended (freshId : String) (state : GameState)
    (action : PlayerAction) (h : RejectedNoOp state action) :
    reduceGameState freshId state action = state := by
  rcases action with ⟨aid, apid, atype, apay, act⟩
  rcases h with ⟨tag, htype⟩ | ⟨hpay, htypes⟩ |
    ⟨htype, tid, hpay, hrest⟩ | ⟨htype, tid, hpay, hrest⟩ |
    ⟨htype, sid, wp, wpp, dp, hpay, hrest⟩ |
    ⟨htype, power, sid, hpay, hrest⟩ | ⟨htype, sid, hpay, hrest⟩ |
    ⟨htype, fid, tid, pr, hpay, hrest⟩
  · simp only at htype
    subst htype
    rfl
  · simp only at hpay
    subst hpay
    rcases htypes with h | h | h | h | h | h | h <;>
      · simp only at h
        subst h
        first
          | rfl
          | (simp only [reduceGameState, reducePlaceStartingSettlement]
             cases hp : getPlayer state apid with
             | none => rfl
             | some player =>
                 dsimp only
                 split
                 · rfl
                 · rfl)
  · -- PLACE_STARTING_SETTLEMENT rejections
    simp only at htype hpay
    subst htype
    subst hpay
    simp only [reduceGameState, reducePlaceStartingSettlement]
    rcases hrest with hpl | ⟨player, hpl, hsub⟩
    · rw [hpl]
    · rw [hpl]
      dsimp only
      rcases hsub with hcount | hsub
      · rw [if_pos hcount]
      · by_cases hc : 0 < countSettlementsForPlayer state player.id
        · rw [if_pos hc]
        · rw [if_neg hc]
          rcases hsub with htl | ⟨tile, htl, hwo⟩
          · rw [htl]
          · rw [htl]
            dsimp only
            rw [if_pos hwo]
  · -- BUILD_SETTLEMENT rejections
    simp only at htype hpay
    subst htype
    subst hpay
    simp only [reduceGameState, reduceBuildSettlement]
    rcases hrest with hph | hrest
    · rw [if_pos hph]
    · by_cases hph : state.phase ≠ GamePhase.RUNNING
      · rw [if_pos hph]
      · rw [if_neg hph]
        rcases hrest with htl | ⟨tile, htl, hsub⟩
        · rw [htl]
        · rw [htl]
          dsimp only
          rcases hsub with hw | hsub
          · rw [if_pos (Or.inl hw)]
          rcases hsub with ho | hsub
          · rw [if_pos (Or.inr ho)]
          by_cases hwo : tile.terrain = .Water ∨
            truthyOptStr tile.settlementId = true
          · rw [if_pos hwo]
          rw [if_neg hwo]
          rcases hsub with hpl | ⟨player, hpl, hsub⟩
          · rw [hpl]
          rw [hpl]
          dsimp only
          rcases hsub with hlen | hsub
          · rw [if_pos hlen]
          by_cases hl : (state.settlements.filter
              (fun s => s.owner = player.id)).length = 0
          · rw [if_pos hl]
          rw [if_neg hl]
          rcases hsub with hwithin | hsub
          · rw [if_pos hwithin]
          by_cases hwi : ¬ (state.settlements.filter
              (fun s => s.owner = player.id)).any (fun s =>
                match findTileById state s.tileId with
                | none => false
                | some sTile => hexDistance sTile.coord tile.coord ≤ 3) = true
          · rw [if_pos hwi]
          rw [if_neg hwi]
          rcases hsub with ha | ha | ha
          · rw [if_pos (Or.inl ha)]
          · rw [if_pos (Or.inr (Or.inl ha))]
          · rw [if_pos (Or.inr (Or.inr ha))]
  · -- ALLOCATE_ROLES rejections
    simp only at htype hpay
    subst htype
    subst hpay
    simp only [reduceGameState, reduceAllocateRoles]
    rcases hrest with hfs | ⟨settlement, hfs, hown⟩
    · rw [hfs]
    · rw [hfs]
      dsimp only
      rw [if_pos hown]
  · -- USE_DEITY_POWER rejections
    simp only at htype hpay
    subst htype
    subst hpay
    simp only [reduceGameState, reduceUseDeityPower]
    rcases hrest with hfs | ⟨settlement, hfs, hsub⟩
    · rw [hfs]
    · rw [hfs]
      dsimp only
      rcases hsub with hown | hsub
      · rw [if_pos hown]
      by_cases ho : settlement.owner ≠ apid
      · rw [if_pos ho]
      rw [if_neg ho]
      rcases hsub with hpl | ⟨player, hpl, hbel⟩
      · rw [hpl]
      rw [hpl]
      dsimp only
      rw [if_pos hbel]
  · -- UPGRADE_SETTLEMENT rejections
    simp only at htype hpay
    subst htype
    subst hpay
    simp only [reduceGameState, reduceUpgradeSettlement]
    rcases hrest with hfs | ⟨settlement, hfs, hsub⟩
    · rw [hfs]
    · rw [hfs]
      dsimp only
      rcases hsub with hown | hsub
      · rw [if_pos hown]
      by_cases ho : settlement.owner ≠ apid
      · rw [if_pos ho]
      rw [if_neg ho]
      rcases hsub with hpl | ⟨player, hpl, haff⟩
      · rw [hpl]
      rw [hpl]
      dsimp only
      rcases haff with ha | ha
      · rw [if_pos (Or.inl ha)]
      · rw [if_pos (Or.inr ha)]
  · -- RAID_SETTLEMENT rejections
    simp only at htype hpay
    subst htype
    subst hpay
    simp only [reduceGameState, reduceRaidSettlement]
    rcases hrest with hf | hrest
    · rw [hf]
    rcases hrest with ht | ⟨fromS, target, hf, ht, hsub⟩
    · rw [ht]
      cases findSettlementById state fid <;> rfl
    rw [hf, ht]
    dsimp only
    rcases hsub with hown | hsub
    · rw [if_pos hown]
    by_cases ho : fromS.owner ≠ apid
    · rw [if_pos ho]
    rw [if_neg ho]
    rcases hsub with hsame | hdef
    · rw [if_pos hsame]
    by_cases hs : fromS.owner = target.owner
    · rw [if_pos hs]
    rw [if_neg hs]
    rw [if_pos hdef]

/-- Witness for the amended C8: an ALLOCATE_ROLES intent without a
    payload is a no-op. -/
theorem silent_reject_amended_witness :
    reduceGameState "f" c8State
        { id := "a", playerId := "P1", type := .ALLOCATE_ROLES,
          payload := .noPayload, clientTimeMs := 99 } = c8State :=
  silent_reject_amended "f" c8State
    { id := "a", playerId := "P1", type := .ALLOCATE_ROLES,
      payload := .noPayload, clientTimeMs := 99 }
    (Or.inr (Or.inl ⟨rfl, Or.inr (Or.inr (Or.inl rfl))⟩))

/-! ## Claim C9: clock behaviour -/

lemma reducePlace_state_or_clock (freshId : String) (state : GameState)
    (action : PlayerAction) :
    reducePlaceStartingSettlement freshId state action = state ∨
      (reducePlaceStartingSettlement freshId state action).currentTimeMs =
        max state.currentTimeMs action.clientTimeMs := by
  rw [reducePlaceStartingSettlement]
  split
  · exact Or.inl rfl
  · split
    · exact Or.inl rfl
    · split
      · split
        · exact Or.inl rfl
        · split
          · exact Or.inl rfl
          · right
            dsimp only
            split <;> rfl
      · exact Or.inl rfl

lemma reduceBuild_state_or_clock (freshId : String) (state : GameState)
    (action : PlayerAction) :
    reduceBuildSettlement freshId state action = state ∨
      (reduceBuildSettlement freshId state action).currentTimeMs =
        max state.currentTimeMs action.clientTimeMs := by
  rw [reduceBuildSettlement]
  split
  · split
    · exact Or.inl rfl
    · split
      · exact Or.inl rfl
      · split
        · exact Or.inl rfl
        · split
          · exact Or.inl rfl
          · dsimp only
            split
            · exact Or.inl rfl
            · split
              · exact Or.inl rfl
              · split
                · exact Or.inl rfl
                · exact Or.inr rfl
  · exact Or.inl rfl

lemma reduceAllocate_state_or_clock (state : GameState)
    (action : PlayerAction) :
    reduceAllocateRoles state action = state ∨
      (reduceAllocateRoles state action).currentTimeMs =
        max state.currentTimeMs action.clientTimeMs := by
  rw [reduceAllocateRoles]
  split
  · split
    · exact Or.inl rfl
    · split
      · exact Or.inl rfl
      · exact Or.inr rfl
  · exact Or.inl rfl

lemma reduceSetPolicy_state_or_clock (state : GameState)
    (action : PlayerAction) :
    reduceSetPolicy state action = state ∨
      (reduceSetPolicy state action).currentTimeMs =
        max state.currentTimeMs action.clientTimeMs := by
  rw [reduceSetPolicy]
  split
  · exact Or.inr rfl
  · exact Or.inl rfl

lemma reduceUseDeityPower_state_or_clock (freshId : String)
    (state : GameState) (action : PlayerAction) :
    reduceUseDeityPower freshId state action = state ∨
      (reduceUseDeityPower freshId state action).currentTimeMs =
        max state.currentTimeMs action.clientTimeMs := by
  rw [reduceUseDeityPower]
  split
  · split
    · exact Or.inl rfl
    · split
      · exact Or.inl rfl
      · split
        · exact Or.inl rfl
        · dsimp only
          split
          · exact Or.inl rfl
          · exact Or.inr rfl
  · exact Or.inl rfl

lemma reduceUpgrade_state_or_clock (state : GameState)
    (action : PlayerAction) :
    reduceUpgradeSettlement state action = state ∨
      (reduceUpgradeSettlement state action).currentTimeMs =
        max state.currentTimeMs action.clientTimeMs := by
  rw [reduceUpgradeSettlement]
  split
  · split
    · exact Or.inl rfl
    · split
      · exact Or.inl rfl
      · split
        · exact Or.inl rfl
        · dsimp only
          split
          · exact Or.inl rfl
          · exact Or.inr rfl
  · exact Or.inl rfl

lemma reduceRaid_state_or_clock (state : GameState)
    (action : PlayerAction) :
    reduceRaidSettlement state action = state ∨
      (reduceRaidSettlement state action).currentTimeMs =
        max state.currentTimeMs action.clientTimeMs := by
  rw [reduceRaidSettlement]
  split
  · split
    · split
      · exact Or.inl rfl
      · split
        · exact Or.inl rfl
        · dsimp only
          split
          · exact Or.inl rfl
          · right
            split
            · rfl
            · split <;> rfl
    · exact Or.inl rfl
  · exact Or.inl rfl

/-- Claim C9 as stated is false: a TICK ignores the client timestamp —
    with clock 0, delta 1000 and a reported client time of 5000 the
    mutated snapshot's clock is 1000 < 5000 — and a negative delta even
    moves the clock backwards (0 → -500). -/
theorem clock_monotonic_claim_counterexample :
    (reduceGameState "f" c7LobbyState
        { id := "a", playerId := "P1", type := .TICK,
          payload := .tick 1000, clientTimeMs := 5000 }).currentTimeMs =
      1000 ∧
    reduceGameState "f" c7LobbyState
        { id := "a", playerId := "P1", type := .TICK,
          payload := .tick 1000, clientTimeMs := 5000 } ≠ c7LobbyState ∧
    (1000 : ℚ) < 5000 ∧
    (reduceGameState "f" c7LobbyState
        { id := "a", playerId := "P1", type := .TICK,
          payload := .tick (-500), clientTimeMs := 0 }).currentTimeMs =
      -500 ∧
    c7LobbyState.currentTimeMs = 0 := by
  have h1 : (reduceGameState "f" c7LobbyState
      { id := "a", playerId := "P1", type := .TICK,
        payload := .tick 1000, clientTimeMs := 5000 }).currentTimeMs =
      1000 := by
    rw [reduceGameState]
    simp only [reduceTick]
    split
    · norm_num [c7LobbyState, assignTileControllers]
    · norm_num [c7LobbyState, assignTileControllers]
  have h2 : (reduceGameState "f" c7LobbyState
      { id := "a", playerId := "P1", type := .TICK,
        payload := .tick (-500), clientTimeMs := 0 }).currentTimeMs =
      -500 := by
    rw [reduceGameState]
    simp only [reduceTick]
    split
    · norm_num [c7LobbyState, assignTileControllers]
    · norm_num [c7LobbyState, assignTileControllers]
  refine ⟨h1, ?_, by norm_num, h2, rfl⟩
  intro hcon
  rw [hcon] at h1
  norm_num [c7LobbyState] at h1

/-- Claim C9, amended: every non-TICK reduction leaves the clock at
    `max(prior clock, client timestamp)` or returns the snapshot
    unchanged — so the clock never decreases and, when the snapshot
    changed, it is at least the reported client time; a TICK instead sets
    the clock to `prior + deltaMs` (1000 when the payload is absent),
    ignoring the client timestamp, and only a non-negative delta keeps it
    monotonic. -/
theorem clock_monotonic_amended (freshId : String) (state : GameState)
    (action : PlayerAction) :
    (action.type = .TICK →
      (reduceGameState freshId state action).currentTimeMs =
        state.currentTimeMs +
          (match action.payload with
            | ActionPayload.tick d => d
            | _ => 1000)) ∧
    (action.type ≠ .TICK →
      state.currentTimeMs ≤
        (reduceGameState freshId state action).currentTimeMs ∧
      (reduceGameState freshId state action ≠ state →
        action.clientTimeMs ≤
          (reduceGameState freshId state action).currentTimeMs)) := by
  have hcase : action.type = .TICK ∨
      (reduceGameState freshId state action = state ∨
        (reduceGameState freshId state action).currentTimeMs =
          max state.currentTimeMs action.clientTimeMs) := by
    rcases action with ⟨aid, apid, atype, apay, act⟩
    cases atype with
    | NOOP => exact Or.inr (Or.inr rfl)
    | TICK => exact Or.inl rfl
    | PLACE_STARTING_SETTLEMENT =>
        exact Or.inr (reducePlace_state_or_clock freshId state _)
    | BUILD_SETTLEMENT =>
        exact Or.inr (reduceBuild_state_or_clock freshId state _)
    | ALLOCATE_ROLES => exact Or.inr (reduceAllocate_state_or_clock state _)
    | SET_POLICY => exact Or.inr (reduceSetPolicy_state_or_clock state _)
    | USE_DEITY_POWER =>
        exact Or.inr (reduceUseDeityPower_state_or_clock freshId state _)
    | UPGRADE_SETTLEMENT =>
        exact Or.inr (reduceUpgrade_state_or_clock state _)
    | RAID_SETTLEMENT => exact Or.inr (reduceRaid_state_or_clock state _)
    | UNKNOWN tag => exact Or.inr (Or.inl rfl)
  constructor
  · intro htick
    rcases action with ⟨aid, apid, atype, apay, act⟩
    simp only at htick
    subst htick
    rw [reduceGameState]
    simp only [reduceTick]
    cases apay <;>
      · dsimp only
        split <;> rfl
  · intro hne
    rcases hcase with htick | hstate | hclock
    · exact absurd htick hne
    · rw [hstate]
      exact ⟨le_refl _, fun hcon => absurd rfl hcon⟩
    · rw [hclock]
      exact ⟨le_max_left _ _, fun _ => le_max_right _ _⟩

/-- Witness for the amended C9: a NOOP with a later client time advances
    the clock to it. -/
theorem clock_monotonic_amended_witness :
    (reduceGameState "f" c8State
        { id := "a", playerId := "P1", type := .NOOP,
          payload := .noPayload, clientTimeMs := 7 }).currentTimeMs =
      max c8State.currentTimeMs 7 ∧
    c8State.currentTimeMs ≤
      (reduceGameState "f" c8State
        { id := "a", playerId := "P1", type := .NOOP,
          payload := .noPayload, clientTimeMs := 7 }).currentTimeMs :=
  ⟨rfl,
    ((clock_monotonic_amended "f" c8State
      { id := "a", playerId := "P1", type := .NOOP,
        payload := .noPayload, clientTimeMs := 7 }).2 (by decide)).1⟩

end DietyFrontier
